import Mathlib

set_option maxRecDepth 100000

/-!
Verification of the content-extraction and PDF-rendering pipeline of the
rss-report-enhancer connector (`src/utils/html_processor.py`,
class `HTMLProcessor`).

The Python code is shallowly embedded: pure string manipulation is
translated to executable Lean functions over `String` and `List Char`;
network requests, subprocess invocations, temporary files and the external
readability parser are modelled as explicit oracles (records of functions);
Python exceptions are modelled with `Except`.  Python truthiness of
optional strings (`None` and the empty string are falsy) is modelled by
`pyTruthy`.

Section 1: Python string primitives (strip, replace, containment, lower).
-/

/-- Does `pat` occur at the start of `s`?  (Used to model Python substring
scanning: `str.replace`, `in`, and `re` scanning all test candidate
positions left to right.) -/
def headEq : List Char → List Char → Bool
  | [], _ => true
  | _ :: _, [] => false
  | p :: ps, c :: cs => p == c && headEq ps cs

/-- Python `pat in s` on character lists: some suffix of `s` starts with
`pat`. -/
def hasSubList (pat : List Char) : List Char → Bool
  | [] => headEq pat []
  | c :: cs => headEq pat (c :: cs) || hasSubList pat cs

/-- Python `s.replace(pat, rep)`: scan left to right, replace every
non-overlapping occurrence of `pat`, resuming after the replaced text. -/
def replChars (pat rep : List Char) : List Char → List Char
  | [] => []
  | c :: cs =>
    if pat ≠ [] ∧ headEq pat (c :: cs) then
      rep ++ replChars pat rep ((c :: cs).drop pat.length)
    else
      c :: replChars pat rep cs
  termination_by s => s.length
  decreasing_by
    · rename_i h
      have hne : pat.length ≠ 0 := by
        intro h0
        exact h.1 (List.eq_nil_of_length_eq_zero h0)
      simp only [List.length_drop, List.length_cons]
      omega
    · simp only [List.length_cons]
      omega

/-- The whitespace characters stripped by Python `str.strip()` (ASCII
part: space, tab, newline, carriage return, vertical tab, form feed). -/
def pyIsSpace (c : Char) : Bool :=
  c = ' ' || c = '\t' || c = '\n' || c = '\r' || c = Char.ofNat 11 || c = Char.ofNat 12

/-- Python `str.strip()` on character lists. -/
def pyStripL (l : List Char) : List Char :=
  ((l.dropWhile pyIsSpace).reverse.dropWhile pyIsSpace).reverse

/-- Python `str.strip()`. -/
def pyStrip (s : String) : String := ⟨pyStripL s.toList⟩

/-- Python `pat in s`. -/
def strContains (s pat : String) : Bool := hasSubList pat.toList s.toList

/-- Python `s.replace(pat, rep)`. -/
def pyReplace (s pat rep : String) : String :=
  ⟨replChars pat.toList rep.toList s.toList⟩

/-- Python `s.lower()` (ASCII model). -/
def pyLower (s : String) : String := ⟨s.toList.map Char.toLower⟩

/-- Python truthiness of an optional string: `None` and `""` are falsy. -/
def pyTruthy : Option String → Bool
  | none => false
  | some s => s != ""

/-!
Section 2: a small regular-expression engine (Brzozowski derivatives).

The heuristics in `html_processor.py` use `re.search` and `re.findall`.
All patterns appearing in the source are built from literals, character
classes (`[^>]`, `["\x27]`, `\d`, `\w`, `\s`), alternation, and stars; for
each of them the Python backtracking semantics coincides with
leftmost-longest matching (every star in the source is over a class that
excludes the character that must follow it, or the pattern is used only
for a boolean `re.search`, for which greediness is irrelevant), so a
derivative-based leftmost-longest scan is a faithful model.
-/

/-- Regular expressions over characters.  `cls` is a character class given
by a decidable predicate. -/
inductive RE where
  | emp : RE
  | eps : RE
  | cls (p : Char → Bool) : RE
  | alt (a b : RE) : RE
  | cat (a b : RE) : RE
  | star (a : RE) : RE

/-- Does the regex accept the empty string? -/
def RE.nullable : RE → Bool
  | .emp => false
  | .eps => true
  | .cls _ => false
  | .alt a b => a.nullable || b.nullable
  | .cat a b => a.nullable && b.nullable
  | .star _ => true

/-- Smart alternation (drops `emp`). -/
def RE.mkAlt : RE → RE → RE
  | .emp, b => b
  | a, .emp => a
  | a, b => .alt a b

/-- Smart concatenation (absorbs `emp`, drops `eps`). -/
def RE.mkCat : RE → RE → RE
  | .emp, _ => .emp
  | _, .emp => .emp
  | .eps, b => b
  | a, .eps => a
  | a, b => .cat a b

/-- Brzozowski derivative with respect to one character. -/
def RE.deriv (c : Char) : RE → RE
  | .emp => .emp
  | .eps => .emp
  | .cls p => if p c then .eps else .emp
  | .alt a b => mkAlt (a.deriv c) (b.deriv c)
  | .cat a b =>
    if a.nullable then mkAlt (mkCat (a.deriv c) b) (b.deriv c)
    else mkCat (a.deriv c) b
  | .star a => mkCat (a.deriv c) (.star a)

/-- Does some prefix of `s` (possibly empty) match `r`? -/
def reHeadMatch (r : RE) : List Char → Bool
  | [] => r.nullable
  | c :: cs => r.nullable || reHeadMatch (r.deriv c) cs

/-- Length of the longest prefix of `s` matching `r`, tracked during a
derivative walk.  `i` is the number of characters consumed so far. -/
def reLongestFrom (r : RE) (s : List Char) (i : Nat) (best : Option Nat) : Option Nat :=
  let best1 := if r.nullable then some i else best
  match s with
  | [] => best1
  | c :: cs => reLongestFrom (r.deriv c) cs (i + 1) best1

/-- Length of the longest prefix of `s` matching `r`. -/
def reLongest (r : RE) (s : List Char) : Option Nat :=
  reLongestFrom r s 0 none

/-- Python `re.search(r, s) is not None`: some substring of `s` matches. -/
def reSearch (r : RE) : List Char → Bool
  | [] => r.nullable
  | c :: cs => reHeadMatch r (c :: cs) || reSearch r cs

/-- The scan of `re.findall`, with explicit fuel so that the recursion is
structural (and hence kernel-computable); each step consumes at least one
character, so `s.length + 1` units of fuel always suffice. -/
def reCountFuel (r : RE) : Nat → List Char → Nat
  | 0, _ => 0
  | _ + 1, [] => if r.nullable then 1 else 0
  | fuel + 1, c :: cs =>
    match reLongest r (c :: cs) with
    | some (n + 1) => reCountFuel r fuel ((c :: cs).drop (n + 1)) + 1
    | some 0 => reCountFuel r fuel cs + 1
    | none => reCountFuel r fuel cs

/-- Python `len(re.findall(r, s))`: leftmost non-overlapping matches, the
scan resuming after each match (a zero-length match advances one
character, as in Python). -/
def reCount (r : RE) (s : List Char) : Nat := reCountFuel r (s.length + 1) s

/-- `re.search` on strings. -/
def reSearchS (r : RE) (s : String) : Bool := reSearch r s.toList

/-- `len(re.findall(...))` on strings. -/
def reCountS (r : RE) (s : String) : Nat := reCount r s.toList

/-- Single-character literal. -/
def RE.chr (c : Char) : RE := .cls (fun x => x == c)

/-- Case-insensitive single-character literal (models `re.IGNORECASE`). -/
def RE.chrCI (c : Char) : RE := .cls (fun x => x.toLower == c.toLower)

/-- String literal. -/
def RE.lit (s : String) : RE := s.toList.foldr (fun c r => .cat (.chr c) r) .eps

/-- Case-insensitive string literal. -/
def RE.litCI (s : String) : RE := s.toList.foldr (fun c r => .cat (.chrCI c) r) .eps

/-- Negated character class `[^...]`. -/
def RE.noneOf (s : String) : RE := .cls (fun c => !(s.toList.contains c))

/-- One-or-more repetition `r+`. -/
def RE.plus (r : RE) : RE := .cat r (.star r)

/-- Optional occurrence `r?`. -/
def RE.opt (r : RE) : RE := .alt .eps r

/-- Python `\s` (ASCII model). -/
def RE.ws : RE := .cls pyIsSpace

/-- Python `\w` (ASCII model: letters, digits, underscore). -/
def RE.wordC : RE := .cls (fun c => c.isAlphanum || c == '_')

/-- Python `\d`. -/
def RE.digit : RE := .cls Char.isDigit

/-- Python `.` under `re.DOTALL`. -/
def RE.anyC : RE := .cls (fun _ => true)

/-- The class `["\x27]` (double or single quote), common in the WordPress
detection patterns. -/
def RE.quote : RE := .cls (fun c => c == '"' || c == Char.ofNat 39)

/-- The class `[^"\x27]`. -/
def RE.notQuote : RE := .cls (fun c => !(c == '"' || c == Char.ofNat 39))

/-!
Section 3: site classification (`HTMLProcessor._is_wordpress_site`,
source lines 1299-1427) and strategy selection
(`HTMLProcessor._determine_best_strategy`, lines 654-702).
-/

/-- Concatenation of a list of regexes. -/
def reCatList (l : List RE) : RE := l.foldr .cat .eps

/-- Detection (1): pattern
`<meta[^>]*name=["\x27]generator["\x27][^>]*content=["\x27]WordPress`,
searched with `re.IGNORECASE`. -/
def wpMetaGenRe : RE := reCatList
  [.litCI "<meta", .star (.noneOf ">"), .litCI "name=", .quote, .litCI "generator",
   .quote, .star (.noneOf ">"), .litCI "content=", .quote, .litCI "WordPress"]

/-- Detection (2): pattern `wp-(?:content|includes)`. -/
def wpResourceRe : RE := .cat (.lit "wp-") (.alt (.lit "content") (.lit "includes"))

/-- Detection (3): WordPress theme class fragments. -/
def wp_classes : List String :=
  ["wp-block-", "entry-content", "post-content", "the-content",
   "widget-area", "site-header", "site-footer", "wp-caption"]

/-- Detection (3): pattern `class=["\x27][^"\x27]*<fragment>`. -/
def wpClassRe (fragment : String) : RE :=
  reCatList [.lit "class=", .quote, .star .notQuote, .lit fragment]

/-- Detection (5): pattern `blogger\.googleusercontent\.com/img/`. -/
def wpBloggerRe : RE := .lit "blogger.googleusercontent.com/img/"

/-- Detection (6): permalink pattern
`/(20\d\x7b2\x7d)/(0[1-9]|1[0-2])/[\w-]+\.html` applied to the URL. -/
def wpPermalinkRe : RE := reCatList
  [.chr '/', .lit "20", .digit, .digit, .chr '/',
   .alt (.cat (.chr '0') (.cls (fun c => '1' ≤ c && c ≤ '9')))
        (.cat (.chr '1') (.cls (fun c => c == '0' || c == '1' || c == '2'))),
   .chr '/', .plus (.cls (fun c => c.isAlphanum || c == '_' || c == '-')), .lit ".html"]

/-- Detection (7): extended article structure patterns (`re.IGNORECASE`). -/
def wpArticleRes : List RE :=
  [reCatList [.litCI "<article", .star (.noneOf ">"), .litCI "class=", .quote,
     .star .notQuote, .alt (.litCI "post") (.alt (.litCI "entry") (.litCI "blog-post"))],
   reCatList [.litCI "<h", .digit, .star (.noneOf ">"), .litCI "class=", .quote,
     .star .notQuote, .alt (.litCI "post-title") (.litCI "entry-title")],
   reCatList [.litCI "<div", .star (.noneOf ">"), .litCI "class=", .quote,
     .star .notQuote, .alt (.litCI "post-meta") (.litCI "entry-meta")],
   reCatList [.litCI "<div", .star (.noneOf ">"), .litCI "id=", .quote,
     .alt (.litCI "comments") (.litCI "respond")],
   reCatList [.litCI "<div", .star (.noneOf ">"), .litCI "class=", .quote,
     .star .notQuote, .alt (.litCI "share-buttons") (.litCI "social-share")],
   reCatList [.litCI "<link", .star (.noneOf ">"), .litCI "rel=", .quote,
     .litCI "alternate", .quote, .star (.noneOf ">"), .litCI "type=", .quote,
     .litCI "application/", .alt (.litCI "rss+xml") (.litCI "atom+xml")]]

/-- Detection (8): embedded JavaScript signature patterns (no flags). -/
def wpJsRes : List RE :=
  [RE.lit "wp-embed.min.js", RE.lit "wp-emoji-release.min.js",
   reCatList [.lit "jquery/jquery.js", .chr '?', .lit "ver="],
   RE.lit "wp-includes/js/", RE.lit "_wpnonce"]

/-- Detection (9): markdown link pattern `\[[\w\s]+\]\(https?://[^\)]+\)`. -/
def wpMarkdownRe : RE := reCatList
  [.chr '[', .plus (.cls (fun c => c.isAlphanum || c == '_' || pyIsSpace c)),
   .chr ']', .chr '(', .lit "http", .opt (.chr 's'), .lit "://",
   .plus (.noneOf ")"), .chr ')']

/-- Detection (10): enhanced article structure patterns
(`re.IGNORECASE | re.DOTALL`; the lazy `.*?` only affects the match
extent, not whether a match exists, so `anyC` under a star is faithful
for `re.search`). -/
def wpEnhancedRes : List RE :=
  [reCatList [.litCI "<div", .star (.noneOf ">"), .alt (.litCI "author") (.litCI "byline"),
     .star (.noneOf ">"), .chr '>', .star .anyC, .litCI "</div>"],
   reCatList [.litCI "<div", .star (.noneOf ">"), .alt (.litCI "related") (.litCI "more-stories"),
     .star (.noneOf ">"), .chr '>', .star .anyC, .litCI "</div>"],
   reCatList [.litCI "<div", .star (.noneOf ">"), .alt (.litCI "meta") (.litCI "article-info"),
     .star (.noneOf ">"), .chr '>', .star .anyC, .litCI "</div>"]]

/-- Detection (11): header/footer patterns (`re.IGNORECASE`). -/
def wpHeaderFooterRes : List RE :=
  [reCatList [.litCI "<header", .star (.noneOf ">"), .litCI "class=", .quote,
     .star .notQuote, .alt (.litCI "site-header") (.litCI "main-header")],
   reCatList [.litCI "<footer", .star (.noneOf ">"), .litCI "class=", .quote,
     .star .notQuote, .alt (.litCI "site-footer") (.litCI "main-footer")],
   reCatList [.litCI "<div", .star (.noneOf ">"), .litCI "class=", .quote,
     .star .notQuote, .alt (.litCI "copyright") (.litCI "site-info")]]

/-- `HTMLProcessor._is_wordpress_site(html_content, url)` (lines
1299-1427).  The eleven detection groups run in order; any match returns
`True` immediately, and exhausting all checks returns `False`.  The
`debugMode` argument models the `self.debug_mode` attribute, which the
source consults only to decide whether to emit two log lines; it cannot
influence the returned boolean, which claim C9 makes precise. -/
def _is_wordpress_site (debugMode : Bool) (html_content url : String) : Bool :=
  if reSearchS wpMetaGenRe html_content then true
  else if reSearchS wpResourceRe html_content then true
  else if wp_classes.any (fun c => reSearchS (wpClassRe c) html_content) then true
  else if url != "" && (strContains url "/wp-content/" || strContains url "/wp-includes/") then true
  else if reSearchS wpBloggerRe html_content then true
  else if url != "" && reSearchS wpPermalinkRe url then true
  else if wpArticleRes.any (fun r => reSearchS r html_content) then true
  else if wpJsRes.any (fun r => reSearchS r html_content) then true
  else if reSearchS wpMarkdownRe html_content then true
  else if wpEnhancedRes.any (fun r => reSearchS r html_content) then true
  else if wpHeaderFooterRes.any (fun r => reSearchS r html_content) then true
  else
    -- if debug_mode is set the source emits one more log line here,
    -- then falls through to the same return value
    false

/-- Characters allowed in a URL scheme after the leading letter. -/
def schemeChar (c : Char) : Bool := c.isAlphanum || c == '+' || c == '-' || c == '.'

/-- Strip a leading `scheme:` from a URL, as `urllib.parse.urlparse`
does: the text before the first colon must be non-empty, start with a
letter, and consist of scheme characters. -/
def splitScheme (l : List Char) : List Char :=
  match l.findIdx? (fun c => c == ':') with
  | some i =>
    let before := l.take i
    if before ≠ [] ∧ (before.headD ' ').isAlpha ∧ before.all schemeChar then
      l.drop (i + 1)
    else l
  | none => l

/-- `urllib.parse.urlparse(url).netloc`: present only when the remainder
after the scheme starts with `//`, and extends to the next `/`, `?` or
`#`. -/
def pyNetloc (url : String) : String :=
  match splitScheme url.toList with
  | '/' :: '/' :: t => ⟨t.takeWhile (fun c => !(c == '/' || c == '?' || c == '#'))⟩
  | _ => ""

/-- The fixed deny-list of problematic domains (line 688). -/
def problematic_domains : List String :=
  ["therecord.media", "theverge.com", "wired.com", "securityboulevard.com"]

/-- Pattern `display\s*:\s*grid`. -/
def reDisplayGrid : RE :=
  reCatList [.lit "display", .star .ws, .chr ':', .star .ws, .lit "grid"]

/-- Pattern `display\s*:\s*flex`. -/
def reDisplayFlex : RE :=
  reCatList [.lit "display", .star .ws, .chr ':', .star .ws, .lit "flex"]

/-- Pattern `<TAG[^>]*>` used to count opening tags of one family. -/
def reOpenTag (tag : String) : RE :=
  reCatList [.chr '<', .lit tag, .star (.noneOf ">"), .chr '>']

/-- `HTMLProcessor._determine_best_strategy(html_content, url)` (lines
654-702).  WordPress sites always get `extract`; otherwise structural
complexity signals, a deep-nesting count over the div/section/article tag
families, and the deny-list decide between `extract` and `minimal`. -/
def _determine_best_strategy (debugMode : Bool) (html_content url : String) : String :=
  if _is_wordpress_site debugMode html_content url then "extract"
  else
    let has_complex_layout :=
      reSearchS reDisplayGrid html_content || reSearchS reDisplayFlex html_content ||
      decide (reCountS (RE.lit "<div") html_content > 100) ||
      decide (reCountS (RE.lit "<script") html_content > 15)
    let nested_level :=
      ["div", "section", "article"].foldl
        (fun n tag => if reCountS (reOpenTag tag) html_content > 50 then n + 1 else n) 0
    let domain_match :=
      url != "" && problematic_domains.any (fun p => strContains (pyLower (pyNetloc url)) p)
    if (has_complex_layout && decide (nested_level ≥ 2)) || domain_match then "extract"
    else "minimal"

/-!
Section 4: article extraction (`HTMLProcessor.extract_article` and the
three techniques, source lines 64-460).

External effects are oracles: `StandardOracle` models the newspaper3k
download/parse calls of `_extract_standard`, `DirectOracle` the wget
subprocess, file system reads and parse of `_extract_direct`,
`AdvancedOracle` the session requests and parse of `_extract_advanced`.
Every Python `raise` site sits inside a `try/except` that converts the
exception into an error dictionary, so each technique is a total function
into `ExtractResult`.
-/

/-- The fields produced by newspaper3k `Article.parse()` that the source
reads.  `text` uses `Option String` so that Python `None` and truthiness
checks are representable (`publishDate` holds the already `strftime`-
formatted date or `none`, covering both an absent date and a formatting
exception, which the source swallows). -/
structure ParsedArticle where
  title : Option String
  text : Option String
  authors : List String
  publishDate : Option String
  topImage : String
  images : List String
  keywords : List String
deriving DecidableEq, Repr

/-- The result dictionary of one extraction attempt.  Keys absent from the
Python dict (every failure dictionary has only `error` and `text`) are
modelled as `none` / `[]`. -/
structure ExtractResult where
  title : Option String := none
  text : Option String := none
  html : Option String := none
  authors : List String := []
  publish_date : Option String := none
  top_image : Option String := none
  images : List String := []
  keywords : List String := []
  summary : Option String := none
  extraction_method : Option String := none
  error : Option String := none
deriving DecidableEq, Repr

/-- A failure dictionary `{"error": msg, "text": t}`. -/
def errResult (msg : String) (t : Option String) : ExtractResult :=
  { error := some msg, text := t }

/-- `HTMLProcessor.MIN_TEXT_LENGTH` (line 33). -/
def MIN_TEXT_LENGTH : Nat := 100

/-- `HTMLProcessor._build_article_result(article, html_content)` (lines
146-188): build the success dictionary from a parsed article.
`articleHtml` is the `article.html` attribute at the call site; when
`html_content` is passed it takes precedence. -/
def _build_article_result (a : ParsedArticle) (html_content : Option String)
    (articleHtml : String) : ExtractResult :=
  { title := a.title
    text := a.text
    html := some (html_content.getD articleHtml)
    authors := a.authors
    publish_date := a.publishDate
    top_image := some a.topImage
    images := a.images
    keywords := a.keywords
    summary :=
      match a.text with
      | none => none
      | some t => if t != "" && decide (t.length > 200) then some (t.take 200 ++ "...") else some t
    extraction_method := none
    error := none }

/-- `HTMLProcessor._is_valid_result(result)` (lines 113-125): the result
must exist, its `text` must be truthy, and the stripped text must exceed
`MIN_TEXT_LENGTH` characters. -/
def _is_valid_result (result : Option ExtractResult) : Bool :=
  match result with
  | none => false
  | some r => pyTruthy r.text && decide ((pyStrip (r.text.getD "")).length > MIN_TEXT_LENGTH)

/-- The effects of `_extract_standard`: `article.download()` either
raises or yields `article.html`; `article.parse()` on that HTML either
raises or yields the parsed fields. -/
structure StandardOracle where
  download : Except String String
  parse : String → Except String ParsedArticle

/-- `HTMLProcessor._extract_standard(url)` (lines 190-247).  A download
exception, a too-small download, a parse exception, or insufficient text
each produce a failure dictionary; otherwise `_build_article_result` is
returned.  (`url` is consumed by the oracle construction; the function
itself only threads it to logging.)  `standardAfterParse` is the text
check of lines 217-232. -/
def standardAfterParse : Except String ParsedArticle → String → ExtractResult
  | .error e, _ => errResult e none
  | .ok a, htmlC =>
    if !pyTruthy a.text || decide ((pyStrip (a.text.getD "")).length < MIN_TEXT_LENGTH) then
      errResult "Insufficient text content" a.text
    else
      _build_article_result a none htmlC

/-- The body of `_extract_standard` after `article.download()` (lines
207-239): reject a missing or under-100-byte download, then parse. -/
def standardAfterDownload (parse : String → Except String ParsedArticle) :
    Except String String → ExtractResult
  | .error e => errResult e none
  | .ok htmlC =>
    if htmlC.length < 100 then errResult "Failed to download HTML content" none
    else standardAfterParse (parse htmlC) htmlC

/-- `HTMLProcessor._extract_standard(url)`, assembled from the phases
above. -/
def _extract_standard (o : StandardOracle) (url : String) : ExtractResult :=
  standardAfterDownload o.parse o.download

/-- The completed-process value of `subprocess.run(wget_cmd, ...)`. -/
structure WgetRun where
  returncode : Int
  stderr : String

/-- The effects of `_extract_direct`: the wget subprocess (which can
raise), the size and decoded content of the temporary file it wrote, and
the parser.  The scoped temporary file of this technique is created and
deleted wholly inside it and is not observable in the result, so it is
not tracked here. -/
structure DirectOracle where
  run : Except String WgetRun
  size : Nat
  content : String
  parse : String → Except String ParsedArticle

/-- `HTMLProcessor._extract_direct(url)` (lines 249-344): wget into a
temporary file, reject non-zero exit codes and files under 100 bytes,
parse the bytes with newspaper, and keep the result only when the
stripped text exceeds `MIN_TEXT_LENGTH`.  `directAfterParse` is the
validation of lines 308-334. -/
def directAfterParse : Except String ParsedArticle → String → ExtractResult
  | .error e, _ => errResult ("Parse error: " ++ e) none
  | .ok a, content =>
    if pyTruthy a.text && decide ((pyStrip (a.text.getD "")).length > MIN_TEXT_LENGTH) then
      _build_article_result a (some content) content
    else
      errResult "Insufficient text content" a.text

/-- The body of `_extract_direct` after the wget subprocess (lines
284-334). -/
def directAfterRun (size : Nat) (content : String)
    (parse : String → Except String ParsedArticle) : Except String WgetRun → ExtractResult
  | .error e => errResult e none
  | .ok w =>
    if w.returncode != 0 then errResult ("wget failed: " ++ w.stderr) none
    else if size < 100 then errResult "HTML file too small" none
    else directAfterParse (parse content) content

/-- `HTMLProcessor._extract_direct(url)`, assembled from the phases
above. -/
def _extract_direct (o : DirectOracle) (url : String) : ExtractResult :=
  directAfterRun o.size o.content o.parse o.run

/-- The effects of `_extract_advanced`: the homepage visit (status code
or exception), the target request as a function of whether the homepage
visit completed (a completed visit updates the session Referer and
Sec-Fetch-Site headers, so the response may differ), and the parser. -/
structure AdvancedOracle where
  homepage : Except String Nat
  target : Bool → Except String (Nat × String)
  parse : String → Except String ParsedArticle

/-- Whether the homepage visit of `_extract_advanced` completed without
an exception. -/
def homepageVisitOk (o : AdvancedOracle) : Bool :=
  match o.homepage with
  | .ok _ => true
  | .error _ => false

/-- Step 2 of `_extract_advanced` (lines 397-460): issue the single
target request, hard-fail on an exception or a non-200 status, otherwise
parse the body and validate the text length.  `advancedAfterParse` is
the validation of lines 428-452. -/
def advancedAfterParse : Except String ParsedArticle → String → ExtractResult
  | .error e, _ => errResult ("Failed to parse article: " ++ e) none
  | .ok a, body =>
    if pyTruthy a.text && decide ((pyStrip (a.text.getD "")).length > MIN_TEXT_LENGTH) then
      _build_article_result a none body
    else
      errResult "No meaningful text in the article"
        (if pyTruthy a.text then a.text else none)

/-- Step 2 of `_extract_advanced` proper: the single target request with
its hard non-200 failure (lines 409-415). -/
def advancedTargetStep (parse : String → Except String ParsedArticle) :
    Except String (Nat × String) → ExtractResult
  | .error e => errResult e none
  | .ok (status, body) =>
    if status != 200 then
      errResult ("Failed with status code " ++ toString status) none
    else advancedAfterParse (parse body) body

/-- `HTMLProcessor._extract_advanced(url)` (lines 346-460).  Step 1
visits the homepage inside its own `try/except`: an exception is logged
and swallowed and control continues to step 2 regardless. -/
def _extract_advanced (o : AdvancedOracle) (url : String) : ExtractResult :=
  advancedTargetStep o.parse (o.target (homepageVisitOk o))

/-- The three technique oracles available to one `extract_article`
call. -/
structure ExtractorWorld where
  std : StandardOracle
  direct : DirectOracle
  adv : AdvancedOracle

/-- Copy the technique name into the result, as line 94
(`result["extraction_method"] = method_name`) does. -/
def withMethod (r : ExtractResult) (name : String) : ExtractResult :=
  { r with extraction_method := some name }

/-- The loop body of `extract_article` (lines 84-103): run each technique
in turn, return the first result passing `_is_valid_result` tagged with
its technique name, and `none` when the list is exhausted. -/
def tryMethods (url : String) : List (String × (String → ExtractResult)) → Option ExtractResult
  | [] => none
  | (name, f) :: rest =>
    let result := f url
    if _is_valid_result (some result) then some (withMethod result name)
    else tryMethods url rest

/-- `HTMLProcessor.extract_article(url)` (lines 64-111): the fixed
technique ladder standard, direct_wget, advanced.  Each technique catches
its own exceptions and `extract_article` wraps the loop in a further
catch-all, so the embedding is a total function into
`Option ExtractResult`. -/
def extract_article (w : ExtractorWorld) (url : String) : Option ExtractResult :=
  tryMethods url
    [("standard", fun u => _extract_standard w.std u),
     ("direct_wget", fun u => _extract_direct w.direct u),
     ("advanced", fun u => _extract_advanced w.adv u)]

/-!
Section 5: the `extract` transform `_build_clean_article_html` (lines
1010-1166), the quality gate `_is_valid_processed_html` (lines 704-729)
and the layout-repair stylesheet injection (lines 546-548, 1168-1226).
The stylesheet and document-template strings below are transcribed
verbatim from the source (braces written `\x7b`/`\x7d`).
-/

/-- Python `str(x)` on an optional string: `None` renders as `"None"`
inside f-strings. -/
def pyStr : Option String → String
  | none => "None"
  | some s => s

/-- The stylesheet constant of `_build_clean_article_html` (lines 1026-1098), transcribed verbatim. -/
def articleCss : String :=
  "\n"
  ++ "        <style>\n"
  ++ "            /* ページ設定 */\n"
  ++ "            @page \x7b\n"
  ++ "                size: A4;\n"
  ++ "                margin: 10mm 10mm 15mm 10mm;\n"
  ++ "            \x7d\n"
  ++ "            \n"
  ++ "            /* 基本設定 */\n"
  ++ "            body \x7b\n"
  ++ "                font-family: Arial, Helvetica, sans-serif;\n"
  ++ "                font-size: 12pt;\n"
  ++ "                line-height: 1.5;\n"
  ++ "                color: #000;\n"
  ++ "                background-color: #fff;\n"
  ++ "                margin: 0;\n"
  ++ "                padding: 20px;\n"
  ++ "            \x7d\n"
  ++ "            \n"
  ++ "            /* 記事コンテナ */\n"
  ++ "            .article-container \x7b\n"
  ++ "                max-width: 100%;\n"
  ++ "                margin: 0 auto;\n"
  ++ "            \x7d\n"
  ++ "            \n"
  ++ "            /* タイトル */\n"
  ++ "            .article-title \x7b\n"
  ++ "                font-size: 24pt;\n"
  ++ "                font-weight: bold;\n"
  ++ "                margin-bottom: 20px;\n"
  ++ "                line-height: 1.2;\n"
  ++ "                color: #333;\n"
  ++ "            \x7d\n"
  ++ "            \n"
  ++ "            /* メイン画像 */\n"
  ++ "            .main-image \x7b\n"
  ++ "                max-width: 100%;\n"
  ++ "                height: auto;\n"
  ++ "                margin: 20px 0;\n"
  ++ "                display: block;\n"
  ++ "            \x7d\n"
  ++ "            \n"
  ++ "            /* 記事本文 */\n"
  ++ "            .article-content \x7b\n"
  ++ "                margin-top: 20px;\n"
  ++ "                font-size: 12pt;\n"
  ++ "                line-height: 1.6;\n"
  ++ "            \x7d\n"
  ++ "            \n"
  ++ "            /* 段落 */\n"
  ++ "            .article-content p \x7b\n"
  ++ "                margin: 12px 0;\n"
  ++ "            \x7d\n"
  ++ "            \n"
  ++ "            /* 画像 */\n"
  ++ "            .article-content img \x7b\n"
  ++ "                max-width: 100%;\n"
  ++ "                height: auto;\n"
  ++ "                margin: 15px 0;\n"
  ++ "                display: block;\n"
  ++ "            \x7d\n"
  ++ "            \n"
  ++ "            /* フッター */\n"
  ++ "            .article-footer \x7b\n"
  ++ "                margin-top: 30px;\n"
  ++ "                padding-top: 10px;\n"
  ++ "                border-top: 1px solid #ccc;\n"
  ++ "                font-size: 10pt;\n"
  ++ "                color: #666;\n"
  ++ "                text-align: center;\n"
  ++ "            \x7d\n"
  ++ "        </style>\n"
  ++ "        "

/-- The value of `_get_layout_repair_css()` (lines 1168-1226), transcribed verbatim. -/
def layoutRepairCss : String :=
  "\n"
  ++ "        <style>\n"
  ++ "            /* 本文コンテンツの強制表示 */\n"
  ++ "            article, .article, main, .main, .content, .post, .entry, [itemprop=\"articleBody\"], .story \x7b\n"
  ++ "                display: block !important;\n"
  ++ "                width: 100% !important;\n"
  ++ "                max-width: 100% !important;\n"
  ++ "                position: static !important;\n"
  ++ "                overflow: visible !important;\n"
  ++ "                padding: 10px 0 !important;\n"
  ++ "                margin: 0 auto !important;\n"
  ++ "                float: none !important;\n"
  ++ "            \x7d\n"
  ++ "            \n"
  ++ "            /* コンテンツ画像の保持と最適化 */\n"
  ++ "            .content-image-preserve \x7b\n"
  ++ "                display: block !important;\n"
  ++ "                max-width: 90% !important;\n"
  ++ "                height: auto !important;\n"
  ++ "                margin: 10px auto !important;\n"
  ++ "                page-break-inside: avoid !important;\n"
  ++ "            \x7d\n"
  ++ "            \n"
  ++ "            /* 見出し最適化 */\n"
  ++ "            h1, h2, h3 \x7b\n"
  ++ "                page-break-after: avoid !important;\n"
  ++ "                margin-top: 20px !important;\n"
  ++ "                margin-bottom: 10px !important;\n"
  ++ "            \x7d\n"
  ++ "            \n"
  ++ "            /* テキスト最適化 */\n"
  ++ "            p \x7b\n"
  ++ "                margin: 10px 0 !important;\n"
  ++ "                line-height: 1.5 !important;\n"
  ++ "            \x7d\n"
  ++ "            \n"
  ++ "            /* 大きな画像のページ内表示 */\n"
  ++ "            img \x7b\n"
  ++ "                page-break-inside: avoid !important;\n"
  ++ "            \x7d\n"
  ++ "            \n"
  ++ "            /* フッタースタイル */\n"
  ++ "            .pdf-footer \x7b\n"
  ++ "                text-align: center;\n"
  ++ "                font-size: 9pt;\n"
  ++ "                color: #666;\n"
  ++ "                margin-top: 20px;\n"
  ++ "                padding-top: 10px;\n"
  ++ "                border-top: 1px solid #ccc;\n"
  ++ "            \x7d\n"
  ++ "        </style>\n"
  ++ "        "

/-- Literal segment 1 of the `_build_clean_article_html` document f-string (lines 1140-1164). -/
def tmplSeg1 : String :=
  "<!DOCTYPE html>\n"
  ++ "        <html>\n"
  ++ "        <head>\n"
  ++ "            <meta charset=\"UTF-8\">\n"
  ++ "            <meta name=\"viewport\" content=\"width=device-width, initial-scale=1.0\">\n"
  ++ "            <title>"

/-- Literal segment 2 of the `_build_clean_article_html` document f-string (lines 1140-1164). -/
def tmplSeg2 : String :=
  "</title>\n"
  ++ "            "

/-- Literal segment 3 of the `_build_clean_article_html` document f-string (lines 1140-1164). -/
def tmplSeg3 : String :=
  "\n"
  ++ "        </head>\n"
  ++ "        <body>\n"
  ++ "            <div class=\"article-container\">\n"
  ++ "                <h1 class=\"article-title\">"

/-- Literal segment 4 of the `_build_clean_article_html` document f-string (lines 1140-1164). -/
def tmplSeg4 : String :=
  "</h1>\n"
  ++ "                \n"
  ++ "                "

/-- Literal segment 5 of the `_build_clean_article_html` document f-string (lines 1140-1164). -/
def tmplSeg5 : String :=
  "\n"
  ++ "                \n"
  ++ "                <div class=\"article-content\">\n"
  ++ "                    "

/-- Literal segment 6 of the `_build_clean_article_html` document f-string (lines 1140-1164). -/
def tmplSeg6 : String :=
  "\n"
  ++ "                </div>\n"
  ++ "                \n"
  ++ "                <div class=\"article-footer\">\n"
  ++ "                    Source: "

/-- Literal segment 7 of the `_build_clean_article_html` document f-string (lines 1140-1164). -/
def tmplSeg7 : String :=
  "\n"
  ++ "                </div>\n"
  ++ "            </div>\n"
  ++ "        </body>\n"
  ++ "        </html>\n"
  ++ "        "


/-- The paragraph loop of `_build_clean_article_html` (lines 1100-1107):
split the text on blank lines and wrap each non-blank stripped paragraph
in `<p>...</p>`. -/
def mkContentHtml (text : String) : String :=
  (text.splitOn "\n\n").foldl
    (fun acc p => if pyStrip p != "" then acc ++ "<p>" ++ pyStrip p ++ "</p>\n" else acc) ""

/-- Clamp a Python slice index (possibly negative) for a string of length
`L` to the equivalent non-negative split point. -/
def pySliceIdx (L : Nat) (i : Int) : Nat :=
  if i ≥ 0 then min i.toNat L else L - min (-i).toNat L

/-- First `n` characters of a string. -/
def strTake (s : String) (n : Nat) : String := ⟨s.toList.take n⟩

/-- All but the first `n` characters of a string. -/
def strDrop (s : String) (n : Nat) : String := ⟨s.toList.drop n⟩

/-- The inline image tag inserted into the article body (line 1132). -/
def articleImgTag (img_url : String) : String :=
  "<img src=\"" ++ img_url ++ "\" alt=\"\" class=\"article-image\" />\n"

/-- The image-insertion loop of `_build_clean_article_html` (lines
1117-1137): at most five images not already used, relative URLs resolved
against the article URL (`urljoin` is the standard-library function,
taken as a parameter), each inserted at a character offset computed from
the current body length with Python floor division and slicing. -/
def insertArticleImages (urljoin : String → String → String) (url : String) :
    List String → String → List String → Nat → String
  | [], content, _, _ => content
  | img :: rest, content, used, count =>
    if !(used.contains img) && decide (count < 5) then
      let img2 :=
        if url != "" && !(img.startsWith "http://" || img.startsWith "https://") then
          urljoin url img
        else img
      let L : Int := (content.length : Int)
      let pos : Int := min (L / 2 + (count : Int) * (L / 10)) (L - 1)
      let k := pySliceIdx content.length pos
      let content2 := strTake content k ++ articleImgTag img2 ++ strDrop content k
      insertArticleImages urljoin url rest content2 (img2 :: used) (count + 1)
    else
      insertArticleImages urljoin url rest content used count

/-- `HTMLProcessor._build_clean_article_html(title, text, top_image,
images, url, include_images)` (lines 1010-1166): synthesize a fresh
article document from extracted fields. -/
def _build_clean_article_html (urljoin : String → String → String)
    (title : Option String) (text : String) (top_image : Option String)
    (images : List String) (url : String) (include_images : Bool) : String :=
  let content0 := mkContentHtml text
  let content_html :=
    if include_images && !images.isEmpty then
      let used := if pyTruthy top_image then [top_image.getD ""] else []
      insertArticleImages urljoin url images content0 used 0
    else content0
  tmplSeg1 ++ pyStr title ++ tmplSeg2 ++ articleCss ++ tmplSeg3 ++ pyStr title ++ tmplSeg4
    ++ (if pyTruthy top_image && include_images then
          "<img src=\"" ++ pyStr top_image ++ "\" alt=\"" ++ pyStr title
            ++ "\" class=\"main-image\" />"
        else "")
    ++ tmplSeg5 ++ content_html ++ tmplSeg6
    ++ (if url != "" then url else "Unknown source") ++ tmplSeg7

/-- Count of ASCII alphanumeric characters,
`len(re.findall(r'[a-zA-Z0-9]', html_content))` (line 715). -/
def countAlnum (s : String) : Nat := (s.toList.filter (fun c => c.isAlphanum)).length

/-- `HTMLProcessor._is_valid_processed_html(html_content)` (lines
704-729): alphanumeric density at least 5 percent (the float comparison
`count/max(len,1) < 0.05` is modelled by the exact rational test
`20*count < max(len,1)`, which agrees with the double-precision
computation for all practically reachable sizes), at least one
recognizable content container, and at most 500000 characters. -/
def _is_valid_processed_html (html_content : String) : Bool :=
  if 20 * countAlnum html_content < max html_content.length 1 then false
  else
    let content_containers :=
      ["<article", "<div class=\"content\"", "<div class=\"article\"", "<main"]
    if !content_containers.any (fun c => strContains html_content c) then false
    else if html_content.length > 500000 then false
    else true

/-- Step 4 of `convert_html_to_pdf` (lines 546-548): when the prepared
HTML contains `</head>`, `str.replace` every occurrence with the repair
stylesheet followed by `</head>`. -/
def injectRepairCss (cleaned_html : String) : String :=
  if strContains cleaned_html "</head>" then
    pyReplace cleaned_html "</head>" (layoutRepairCss ++ "</head>")
  else cleaned_html

/-!
Section 6: the image-protection pass
(`HTMLProcessor._enhance_content_images`, lines 731-790).

The pass parses the page with lxml and mutates `img` elements in place.
We model the parsed page as a tree `HNode`; `lxml.html.document_fromstring`
and `lxml.html.tostring` are oracle functions.  The in-place mutation is
equivalent to a top-down pass: an `img` is visited once per occurrence of
a matched content element among its ancestors-or-self (an element is
counted once per content selector it matches, exactly as the source
extends `content_elements` selector by selector and `element.cssselect('img')`
collects descendant-or-self images), and each visit applies the
check-then-protect step to the current attributes.
-/

/-- A parsed HTML node: element with tag, attributes and children, or a
text node. -/
inductive HNode where
  | elem (tag : String) (attrs : List (String × String)) (children : List HNode)
  | text (s : String)

/-- lxml `element.get(k)`: first attribute with the given name. -/
def getAttr (attrs : List (String × String)) (k : String) : Option String :=
  (attrs.find? (fun kv => kv.1 == k)).map (fun kv => kv.2)

/-- lxml `element.set(k, v)`: replace the attribute in place, or append
it. -/
def setAttr : List (String × String) → String → String → List (String × String)
  | [], k, v => [(k, v)]
  | (k0, v0) :: rest, k, v =>
    if k0 == k then (k, v) :: rest else (k0, v0) :: setAttr rest k v

/-- The CSS selector forms used by `content_selectors`. -/
inductive CssSel where
  | tag (t : String)
  | classTok (c : String)
  | attrEq (k v : String)

/-- Split a class attribute into whitespace-separated tokens. -/
def wsTokensAux : List Char → List Char → List String
  | [], cur => if cur.isEmpty then [] else [⟨cur.reverse⟩]
  | c :: cs, cur =>
    if pyIsSpace c then
      if cur.isEmpty then wsTokensAux cs [] else (⟨cur.reverse⟩ : String) :: wsTokensAux cs []
    else wsTokensAux cs (c :: cur)

/-- Whitespace-separated tokens of a string. -/
def wsTokens (s : String) : List String := wsTokensAux s.toList []

/-- Does one selector match an element with the given tag and
attributes?  A class selector matches a whitespace-separated token of the
`class` attribute; an attribute selector matches exactly. -/
def selMatches (s : CssSel) (tag : String) (attrs : List (String × String)) : Bool :=
  match s with
  | .tag t => tag == t
  | .classTok c => (wsTokens ((getAttr attrs "class").getD "")).contains c
  | .attrEq k v => getAttr attrs k == some v

/-- `content_selectors` (lines 746-749). -/
def contentSelectors : List CssSel :=
  [.tag "article", .classTok "article", .classTok "content", .tag "main", .classTok "main",
   .classTok "post", .classTok "entry", .attrEq "itemprop" "articleBody", .classTok "story"]

/-- How many times an element occurs in `content_elements`: once per
content selector it matches. -/
def selCount (tag : String) (attrs : List (String × String)) : Nat :=
  (contentSelectors.filter (fun s => selMatches s tag attrs)).length

/-- Decimal value of a digit string, as Python `int` reads it. -/
def digitsVal (l : List Char) : Nat :=
  l.foldl (fun n c => n * 10 + (c.toNat - 48)) 0

/-- The small-icon exclusion (lines 766-769): a `width` attribute that is
present, truthy, all digits, and below 50. -/
def widthSkip (attrs : List (String × String)) : Bool :=
  match getAttr attrs "width" with
  | none => false
  | some w => w != "" && w.toList.all Char.isDigit && decide (digitsVal w.toList < 50)

/-- The ad-image term list (line 774). -/
def adTerms : List String := ["ad", "banner", "icon", "logo"]

/-- The ad-image exclusion (lines 771-774): any term occurring in the
lowercased `class` or `src` attribute. -/
def adSkip (attrs : List (String × String)) : Bool :=
  let cls := pyLower ((getAttr attrs "class").getD "")
  let src := pyLower ((getAttr attrs "src").getD "")
  adTerms.any (fun t => strContains cls t || strContains src t)

/-- An image is skipped when either exclusion applies. -/
def imgSkip (attrs : List (String × String)) : Bool := widthSkip attrs || adSkip attrs

/-- The protective class token added to content images (line 778). -/
def protectMarker : String := "content-image-preserve"

/-- The responsive-scaling style fragment appended to content images
(line 779). -/
def protectStyle : String := "; max-width: 100% !important; height: auto !important;"

/-- The protection mutation (lines 777-779): append the protective class
and the scaling style, stripping each result. -/
def protectAttrs (attrs : List (String × String)) : List (String × String) :=
  let a1 := setAttr attrs "class" (pyStrip (((getAttr attrs "class").getD "") ++ " " ++ protectMarker))
  setAttr a1 "style" (pyStrip (((getAttr a1 "style").getD "") ++ protectStyle))

/-- One visit of an image inside one content-element occurrence (lines
765-779): skip small icons and ad-like images, protect the rest. -/
def protectStep (attrs : List (String × String)) : List (String × String) :=
  if imgSkip attrs then attrs else protectAttrs attrs

mutual

/-- The whole pass over one node: `k` content-element occurrences lie
strictly above this node, each of which visits every `img` in this
subtree once. -/
def enhanceNode (k : Nat) : HNode → HNode
  | .text s => .text s
  | .elem tag attrs children =>
    let kk := k + selCount tag attrs
    let attrs2 := if tag == "img" then protectStep^[kk] attrs else attrs
    .elem tag attrs2 (enhanceList kk children)

/-- The pass mapped over a list of children. -/
def enhanceList (k : Nat) : List HNode → List HNode
  | [] => []
  | c :: cs => enhanceNode k c :: enhanceList k cs

end

/-- The lxml parse/serialize pair used by `_enhance_content_images`
(`document_fromstring` may raise on hostile input, which the source
converts into returning the original HTML). -/
structure DomLib where
  parse : String → Except String HNode
  serialize : HNode → String

/-- `HTMLProcessor._enhance_content_images(html_content)` (lines
731-790): parse, protect content images, serialize; on a parse error
return the input unchanged. -/
def _enhance_content_images (lib : DomLib) (html_content : String) : String :=
  match lib.parse html_content with
  | .error _ => html_content
  | .ok doc => lib.serialize (enhanceNode 0 doc)

/-- Retrieve the node at a child-index path. -/
def nodeAt? : HNode → List Nat → Option HNode
  | n, [] => some n
  | .elem _ _ ch, i :: p =>
    match ch.get? i with
    | some c => nodeAt? c p
    | none => none
  | .text _, _ :: _ => none

/-- Total `content_elements` multiplicity strictly above the node at the
given path. -/
def aboveWeight : HNode → List Nat → Nat
  | _, [] => 0
  | .elem t a ch, i :: p =>
    selCount t a + (match ch.get? i with
      | some c => aboveWeight c p
      | none => 0)
  | .text _, _ :: _ => 0

/-- Total `content_elements` multiplicity among ancestors-or-self of the
node at the given path: the number of times the image there is visited by
the pass. -/
def regionWeight (root : HNode) (p : List Nat) : Nat :=
  aboveWeight root p +
    (match nodeAt? root p with
     | some (.elem t a _) => selCount t a
     | _ => 0)

/-!
Section 7: the PDF renderer orchestration
(`HTMLProcessor.convert_html_to_pdf`, lines 462-652).

`_process_wordpress_html`, `_selective_layout_cleaning` and
`_prepare_html_for_better_layout` are source methods whose internals no
claim depends on; they enter the orchestration as opaque function
parameters in `HtmlOps`.  The rasterizer subprocess, the two temporary
files and the file system are modelled by `RasterIO`; the `finally`
block cleanup runs on every exit path of the embedding, as in the
source.  (`os.makedirs` of the runtime directory and the environment
variable mutation of lines 550-559 touch neither the result nor the
temporary files and are not modelled.)
-/

/-- The collaborator transforms of `convert_html_to_pdf`. -/
structure HtmlOps where
  processWordpress : String → String → String
  selectiveCleaning : String → String
  prepareLayout : String → String → Bool → String
  domLib : DomLib
  urljoin : String → String → String

/-- Outcome of `subprocess.run` on the rasterizer command: completed with
an exit code, `TimeoutExpired` after the 120-second limit, or another
exception. -/
inductive RunOutcome where
  | success (returncode : Int) (stdout stderr : String)
  | timeout
  | exc (msg : String)

/-- The rasterizer and file-system effects of one render call: the
subprocess outcome and the bytes it writes into the output file, both as
functions of the HTML written to the input file; the two fresh temporary
paths; and the initial set of files. -/
structure RasterIO where
  run : String → RunOutcome
  pdfOut : String → List Nat
  htmlTmp : String
  pdfTmp : String
  fs0 : List String

/-- The observable outcome of one `convert_html_to_pdf` call: the
returned PDF bytes (or `none`), the final file set, and the HTML that was
written to the rasterizer input file. -/
structure ConvertResult where
  pdf : Option (List Nat)
  fs : List String
  writtenHtml : String

/-- Lines 490-494: WordPress pages are preprocessed by
`_process_wordpress_html`. -/
def wpProcessedHtml (dbg : Bool) (ops : HtmlOps) (html0 url : String) : String :=
  if _is_wordpress_site dbg html0 url then ops.processWordpress html0 url else html0

/-- Lines 490-499: the strategy actually applied: `extract` is forced for
WordPress pages, `auto` is resolved by `_determine_best_strategy`, and an
explicit `extract`/`minimal` request passes through. -/
def resolvedStrategy (dbg : Bool) (html0 url strat0 : String) : String :=
  if _is_wordpress_site dbg html0 url then "extract"
  else if strat0 == "auto" then _determine_best_strategy dbg html0 url
  else strat0

/-- Lines 502-504: the content-image protection pass runs on the
(possibly WordPress-preprocessed) HTML when images are included. -/
def htmlAfterEnhance (dbg : Bool) (ops : HtmlOps) (html0 url : String) (inc : Bool) : String :=
  let h := wpProcessedHtml dbg ops html0 url
  if inc then _enhance_content_images ops.domLib h else h

/-- The minimal-strategy candidate (lines 529-530, also the fallback of
the extract branch at lines 523-525): selective cleaning followed by the
layout-preserving preparation. -/
def minimalCandidate (dbg : Bool) (ops : HtmlOps) (html0 url : String) (inc : Bool) : String :=
  ops.prepareLayout (ops.selectiveCleaning (htmlAfterEnhance dbg ops html0 url inc)) url inc

/-- The extract-strategy rebuild (lines 512-520, 537-544): feed the
extracted fields into `_build_clean_article_html`. -/
def buildFromArticle (ops : HtmlOps) (r : ExtractResult) (url : String) (inc : Bool) : String :=
  _build_clean_article_html ops.urljoin r.title (r.text.getD "") r.top_image r.images url inc

/-- Steps 0-3 of `convert_html_to_pdf` (lines 490-544): the prepared
`cleaned_html` before the repair-stylesheet injection. -/
def convertCleanedHtml (dbg : Bool) (ops : HtmlOps) (w : ExtractorWorld)
    (html0 url : String) (inc : Bool) (strat0 : String) : String :=
  let strat := resolvedStrategy dbg html0 url strat0
  if strat == "extract" then
    match extract_article w url with
    | some r =>
      if pyTruthy r.text then buildFromArticle ops r url inc
      else minimalCandidate dbg ops html0 url inc
    | none => minimalCandidate dbg ops html0 url inc
  else
    let c := minimalCandidate dbg ops html0 url inc
    if _is_valid_processed_html c then c
    else
      match extract_article w url with
      | some r => if pyTruthy r.text then buildFromArticle ops r url inc else c
      | none => c

/-- The HTML written to the rasterizer input file: `cleaned_html` with
the layout-repair stylesheet injected before `</head>` (lines 546-548). -/
def convertFinalHtml (dbg : Bool) (ops : HtmlOps) (w : ExtractorWorld)
    (html0 url : String) (inc : Bool) (strat0 : String) : String :=
  injectRepairCss (convertCleanedHtml dbg ops w html0 url inc strat0)

/-- `HTMLProcessor.convert_html_to_pdf(html_content, wkhtmltopdf_path,
url, preserve_layout, include_images, image_quality, ad_removal_strategy)`
(lines 462-652).  `preserve_layout` and `image_quality` are accepted and
never read, as in the source.  Both temporary files are created before
the subprocess runs; the `finally` block deletes whichever of them exist
on every exit path: success, non-zero exit, timeout, and any other
exception.  `rasterPhase` is the subprocess/read/cleanup tail of lines
608-652 (on completion a non-zero exit code or an empty output file
yields `none`, otherwise the output bytes are returned; a timeout or any
other exception yields `none`; the `finally` cleanup is the `fsEnd`
filter of its caller). -/
def rasterPhase (fsEnd : List String) (final : String) (pdfBytes : List Nat) :
    RunOutcome → ConvertResult
  | .success rc _ _ =>
    if rc != 0 then { pdf := none, fs := fsEnd, writtenHtml := final }
    else if !pdfBytes.isEmpty then { pdf := some pdfBytes, fs := fsEnd, writtenHtml := final }
    else { pdf := none, fs := fsEnd, writtenHtml := final }
  | .timeout => { pdf := none, fs := fsEnd, writtenHtml := final }
  | .exc _ => { pdf := none, fs := fsEnd, writtenHtml := final }

def convert_html_to_pdf (dbg : Bool) (ops : HtmlOps) (w : ExtractorWorld) (io3 : RasterIO)
    (html0 url : String) (preserve_layout : Bool) (inc : Bool) (image_quality : Nat)
    (strat0 : String) : ConvertResult :=
  let final := convertFinalHtml dbg ops w html0 url inc strat0
  let fs2 := io3.pdfTmp :: io3.htmlTmp :: io3.fs0
  let fsEnd := fs2.filter (fun p => !(p == io3.htmlTmp) && !(p == io3.pdfTmp))
  rasterPhase fsEnd final (io3.pdfOut final) (io3.run final)

/-!
Section 8: specification-side definitions and concrete fixtures used by
the claim theorems and their witnesses.
-/

/-- Claim C4, written from the words of the specification: `extract`
exactly when the page is a templated blog, or the complex-layout signals
hold and at least two of the three tag families div/section/article each
occur more than 50 times, or the URL domain matches the deny-list;
otherwise `minimal`. -/
def chooseStrategySpec (dbg : Bool) (html url : String) : String :=
  let templated := _is_wordpress_site dbg html url
  let complexSignals :=
    reSearchS reDisplayGrid html || reSearchS reDisplayFlex html ||
    decide (reCountS (RE.lit "<div") html > 100) ||
    decide (reCountS (RE.lit "<script") html > 15)
  let famDiv := decide (reCountS (reOpenTag "div") html > 50)
  let famSection := decide (reCountS (reOpenTag "section") html > 50)
  let famArticle := decide (reCountS (reOpenTag "article") html > 50)
  let deepNesting := famDiv && famSection || famDiv && famArticle || famSection && famArticle
  let domainDeny :=
    url != "" && problematic_domains.any (fun p => strContains (pyLower (pyNetloc url)) p)
  if templated || complexSignals && deepNesting || domainDeny then "extract" else "minimal"

/-- Fixture: a standard technique whose download raises (the scenario
`non-200 on standard` surfaces as a newspaper download failure). -/
def stdFail : StandardOracle :=
  { download := .error "connection error", parse := fun _ => .error "not reached" }

/-- Fixture: a direct technique whose wget exits non-zero. -/
def directFail : DirectOracle :=
  { run := .ok { returncode := 4, stderr := "wget: network failure" },
    size := 0, content := "", parse := fun _ => .error "not reached" }

/-- Fixture: an advanced technique that receives a non-200 status on the
target request. -/
def advFail : AdvancedOracle :=
  { homepage := .ok 200, target := fun _ => .ok (403, "Forbidden"),
    parse := fun _ => .error "not reached" }

/-- Fixture: all three techniques fail. -/
def worldAllFail : ExtractorWorld := ⟨stdFail, directFail, advFail⟩

/-- Fixture: a 101-character article text, one character over the
minimum-length threshold. -/
def text101 : String := ⟨List.replicate 101 'a'⟩

/-- Fixture: a downloaded page comfortably over the 100-byte floor. -/
def html120 : String := ⟨List.replicate 120 'h'⟩

/-- Fixture: a parsed article whose text is just long enough to be
valid. -/
def parsedOk : ParsedArticle :=
  { title := some "T", text := some text101, authors := [], publishDate := none,
    topImage := "", images := [], keywords := [] }

/-- Fixture: a standard technique that succeeds. -/
def stdOk : StandardOracle :=
  { download := .ok html120, parse := fun _ => .ok parsedOk }

/-- Fixture: the standard technique succeeds and the others would fail. -/
def worldStdOk : ExtractorWorld := ⟨stdOk, directFail, advFail⟩

/-- Fixture: the standard technique fails and the direct technique
succeeds. -/
def directOk : DirectOracle :=
  { run := .ok { returncode := 0, stderr := "" }, size := 120, content := html120,
    parse := fun _ => .ok parsedOk }

/-- Fixture: a world in which only the direct technique yields a valid
result. -/
def worldDirectOk : ExtractorWorld := ⟨stdFail, directOk, advFail⟩

/-- Fixture: an advanced technique whose homepage visit raises and whose
target request yields a non-200 status. -/
def advHomepageErr : AdvancedOracle :=
  { homepage := .error "homepage timeout", target := fun _ => .ok (503, "unavailable"),
    parse := fun _ => .error "not reached" }

/-- Fixture: identity-like collaborator transforms for the render
orchestration (the claims quantify over all transforms; witnesses pin
concrete ones). -/
def opsId : HtmlOps :=
  { processWordpress := fun h _ => h
    selectiveCleaning := fun h => h
    prepareLayout := fun h _ _ => h
    domLib := { parse := fun _ => .error "no parser", serialize := fun _ => "" }
    urljoin := fun _ rel => rel }

/-- Fixture: a rasterizer that completes successfully and writes one
byte. -/
def ioOk : RasterIO :=
  { run := fun _ => .success 0 "" "", pdfOut := fun _ => [37],
    htmlTmp := "/tmp/in.html", pdfTmp := "/tmp/out.pdf", fs0 := ["/data/report.json"] }

/-- Fixture: a rasterizer that exceeds the 120-second timeout. -/
def ioTimeout : RasterIO :=
  { run := fun _ => .timeout, pdfOut := fun _ => [],
    htmlTmp := "/tmp/in.html", pdfTmp := "/tmp/out.pdf", fs0 := ["/data/report.json"] }

/-- Fixture for C8, the scenario of specification section 8: a page with
a 30-pixel image classed `icon` at the top level of the body and an
800-pixel image inside an `article` element. -/
def c8Doc : HNode :=
  .elem "html" [] [
    .elem "body" [] [
      .elem "img" [("width", "30"), ("class", "icon"), ("src", "i.png")] [],
      .elem "article" [] [
        .elem "img" [("width", "800"), ("src", "photo.jpg")] []]]]

/-- A string starting with the two characters of a DOCTYPE declaration
(used to separate `_build_clean_article_html` outputs from other pages). -/
def startsLtBang (s : String) : Prop := ∃ r, s.toList = '<' :: '!' :: r

/-- The responsive-scaling fragment that the image-protection pass puts
into the `style` attribute (the appended text minus its `"; "` glue). -/
def styleSnippet : String := "max-width: 100% !important; height: auto !important;"

/-- The attributes of the element at a path, when the path leads to an
element. -/
def attrsAt (root : HNode) (p : List Nat) : Option (List (String × String)) :=
  match nodeAt? root p with
  | some (.elem _ a _) => some a
  | _ => none

/-- The `class` attribute of the element at a path (empty when absent). -/
def classAt (root : HNode) (p : List Nat) : String :=
  ((attrsAt root p).bind (fun a => getAttr a "class")).getD ""

/-- The `style` attribute of the element at a path (empty when absent). -/
def styleAt (root : HNode) (p : List Nat) : String :=
  ((attrsAt root p).bind (fun a => getAttr a "style")).getD ""

/-!
Section 9: helper lemmas shared by the claim theorems.
-/

/-- String append distributes over `toList`. -/
theorem toList_append (a b : String) : (a ++ b).toList = a.toList ++ b.toList := by
  cases a; cases b; rfl

/-- Rebuild a string from the concatenation of the character lists of two
strings. -/
theorem mk_toList_append (a b : String) : (⟨a.toList ++ b.toList⟩ : String) = a ++ b := by
  cases a; cases b; rfl

/-- Unfolding `_is_valid_result` on a present result. -/
theorem is_valid_result_some (r : ExtractResult) :
    _is_valid_result (some r) =
      (pyTruthy r.text && decide ((pyStrip (r.text.getD "")).length > MIN_TEXT_LENGTH)) := rfl

/-- The `text` field of a failure dictionary. -/
theorem errResult_text (m : String) (t : Option String) : (errResult m t).text = t := rfl

/-- The `error` field of a failure dictionary. -/
theorem errResult_error (m : String) (t : Option String) : (errResult m t).error = some m := rfl

/-- `_build_article_result` always sets `error` to `None` (line 187). -/
theorem build_article_result_error (a : ParsedArticle) (hc : Option String) (ah : String) :
    (_build_article_result a hc ah).error = none := rfl

/-- Tagging the technique name does not change the `error` field. -/
theorem withMethod_error (r : ExtractResult) (n : String) : (withMethod r n).error = r.error := rfl

/-- Tagging the technique name does not change the `text` field. -/
theorem withMethod_text (r : ExtractResult) (n : String) : (withMethod r n).text = r.text := rfl

/-- Tagging the technique name sets `extraction_method` to that name. -/
theorem withMethod_method (r : ExtractResult) (n : String) :
    (withMethod r n).extraction_method = some n := rfl

/-- A valid result has a non-empty text whose stripped length exceeds the
minimum threshold. -/
theorem valid_elim (r : ExtractResult) (h : _is_valid_result (some r) = true) :
    ∃ s, r.text = some s ∧ s ≠ "" ∧ (pyStrip s).length > MIN_TEXT_LENGTH := by
  rw [is_valid_result_some] at h
  cases ht : r.text with
  | none => rw [ht] at h; simp [pyTruthy] at h
  | some s =>
    rw [ht] at h
    simp only [pyTruthy, Option.getD_some, Bool.and_eq_true, bne_iff_ne, ne_eq,
      decide_eq_true_eq] at h
    exact ⟨s, rfl, h.1, h.2⟩

/-- A failure dictionary whose text does not exceed the threshold is
never valid. -/
theorem valid_errResult_false (m : String) (t : Option String)
    (hlen : ∀ s, t = some s → ¬ (pyStrip s).length > MIN_TEXT_LENGTH) :
    _is_valid_result (some (errResult m t)) = false := by
  rw [is_valid_result_some, errResult_text]
  cases t with
  | none => rfl
  | some s =>
    have h := hlen s rfl
    cases hb : decide ((pyStrip ((some s).getD "")).length > MIN_TEXT_LENGTH) with
    | false => rw [Bool.and_false]
    | true =>
      exfalso
      exact h (by simpa using of_decide_eq_true hb)

/-- The parse phase of the standard technique never returns a valid
result carrying an error message. -/
theorem standardAfterParse_error_none (pr : Except String ParsedArticle) (htmlC : String)
    (h : _is_valid_result (some (standardAfterParse pr htmlC)) = true) :
    (standardAfterParse pr htmlC).error = none := by
  cases pr with
  | error e =>
    simp only [standardAfterParse] at h
    rw [valid_errResult_false _ _ (by intro s hs; simp at hs)] at h
    simp at h
  | ok a =>
    simp only [standardAfterParse] at h ⊢
    by_cases hc :
        (!pyTruthy a.text
          || decide ((pyStrip (a.text.getD "")).length < MIN_TEXT_LENGTH)) = true
    · rw [if_pos hc] at h
      exfalso
      have hfalse :
          _is_valid_result (some (errResult "Insufficient text content" a.text)) = false := by
        apply valid_errResult_false
        intro s hs hgt
        rw [hs] at hc
        rcases (Bool.or_eq_true _ _).mp hc with hx | hx
        · have hse : s = "" := by
            by_contra hne
            have htr : pyTruthy (some s) = true := by simp [pyTruthy, hne]
            rw [htr] at hx
            simp at hx
          subst hse
          exact absurd hgt (by decide)
        · have hlt := of_decide_eq_true hx
          simp only [Option.getD_some] at hlt
          omega
      rw [hfalse] at h
      simp at h
    · rw [if_neg hc]
      exact build_article_result_error a none htmlC

/-- The download phase of the standard technique never returns a valid
result carrying an error message. -/
theorem standardAfterDownload_error_none (parse : String → Except String ParsedArticle)
    (dl : Except String String)
    (h : _is_valid_result (some (standardAfterDownload parse dl)) = true) :
    (standardAfterDownload parse dl).error = none := by
  cases dl with
  | error e =>
    simp only [standardAfterDownload] at h
    rw [valid_errResult_false _ _ (by intro s hs; simp at hs)] at h
    simp at h
  | ok htmlC =>
    simp only [standardAfterDownload] at h ⊢
    by_cases hl : htmlC.length < 100
    · rw [if_pos hl] at h
      rw [valid_errResult_false _ _ (by intro s hs; simp at hs)] at h
      simp at h
    · rw [if_neg hl] at h ⊢
      exact standardAfterParse_error_none (parse htmlC) htmlC h

/-- If the standard technique produced a valid result, that result came
out of `_build_article_result`, so its `error` field is `None`. -/
theorem standard_valid_error_none (o : StandardOracle) (url : String)
    (h : _is_valid_result (some (_extract_standard o url)) = true) :
    (_extract_standard o url).error = none :=
  standardAfterDownload_error_none o.parse o.download h

/-- The parse phase of the direct technique never returns a valid result
carrying an error message. -/
theorem directAfterParse_error_none (pr : Except String ParsedArticle) (content : String)
    (h : _is_valid_result (some (directAfterParse pr content)) = true) :
    (directAfterParse pr content).error = none := by
  cases pr with
  | error e =>
    simp only [directAfterParse] at h
    rw [valid_errResult_false _ _ (by intro s hs; simp at hs)] at h
    simp at h
  | ok a =>
    simp only [directAfterParse] at h ⊢
    by_cases hc :
        (pyTruthy a.text
          && decide ((pyStrip (a.text.getD "")).length > MIN_TEXT_LENGTH)) = true
    · rw [if_pos hc]
      exact build_article_result_error a (some content) content
    · rw [if_neg hc] at h
      exfalso
      have hfalse :
          _is_valid_result (some (errResult "Insufficient text content" a.text)) = false := by
        apply valid_errResult_false
        intro s hs hgt
        apply hc
        rw [hs]
        simp only [pyTruthy, Option.getD_some, Bool.and_eq_true, bne_iff_ne, ne_eq,
          decide_eq_true_eq]
        refine ⟨?_, hgt⟩
        intro hempty
        subst hempty
        exact absurd hgt (by decide)
      rw [hfalse] at h
      simp at h

/-- The run phase of the direct technique never returns a valid result
carrying an error message. -/
theorem directAfterRun_error_none (size : Nat) (content : String)
    (parse : String → Except String ParsedArticle) (rn : Except String WgetRun)
    (h : _is_valid_result (some (directAfterRun size content parse rn)) = true) :
    (directAfterRun size content parse rn).error = none := by
  cases rn with
  | error e =>
    simp only [directAfterRun] at h
    rw [valid_errResult_false _ _ (by intro s hs; simp at hs)] at h
    simp at h
  | ok w =>
    simp only [directAfterRun] at h ⊢
    by_cases hr : (w.returncode != 0) = true
    · rw [if_pos hr] at h
      rw [valid_errResult_false _ _ (by intro s hs; simp at hs)] at h
      simp at h
    · rw [if_neg hr] at h ⊢
      by_cases hs100 : size < 100
      · rw [if_pos hs100] at h
        rw [valid_errResult_false _ _ (by intro s hs; simp at hs)] at h
        simp at h
      · rw [if_neg hs100] at h ⊢
        exact directAfterParse_error_none (parse content) content h

/-- If the direct technique produced a valid result, its `error` field is
`None`. -/
theorem direct_valid_error_none (o : DirectOracle) (url : String)
    (h : _is_valid_result (some (_extract_direct o url)) = true) :
    (_extract_direct o url).error = none :=
  directAfterRun_error_none o.size o.content o.parse o.run h

/-- The parse phase of the advanced technique never returns a valid
result carrying an error message. -/
theorem advancedAfterParse_error_none (pr : Except String ParsedArticle) (body : String)
    (h : _is_valid_result (some (advancedAfterParse pr body)) = true) :
    (advancedAfterParse pr body).error = none := by
  cases pr with
  | error e =>
    simp only [advancedAfterParse] at h
    rw [valid_errResult_false _ _ (by intro s hs; simp at hs)] at h
    simp at h
  | ok a =>
    simp only [advancedAfterParse] at h ⊢
    by_cases hc :
        (pyTruthy a.text
          && decide ((pyStrip (a.text.getD "")).length > MIN_TEXT_LENGTH)) = true
    · rw [if_pos hc]
      exact build_article_result_error a none body
    · rw [if_neg hc] at h
      exfalso
      have hfalse :
          _is_valid_result (some (errResult "No meaningful text in the article"
            (if pyTruthy a.text then a.text else none))) = false := by
        apply valid_errResult_false
        intro s hs hgt
        by_cases hpt : pyTruthy a.text = true
        · rw [if_pos hpt] at hs
          apply hc
          rw [hs] at hpt ⊢
          rw [hpt, Bool.true_and]
          simpa using hgt
        · rw [if_neg hpt] at hs
          simp at hs
      rw [hfalse] at h
      simp at h

/-- The target phase of the advanced technique never returns a valid
result carrying an error message. -/
theorem advancedTargetStep_error_none (parse : String → Except String ParsedArticle)
    (tr : Except String (Nat × String))
    (h : _is_valid_result (some (advancedTargetStep parse tr)) = true) :
    (advancedTargetStep parse tr).error = none := by
  cases tr with
  | error e =>
    simp only [advancedTargetStep] at h
    rw [valid_errResult_false _ _ (by intro s hs; simp at hs)] at h
    simp at h
  | ok sb =>
    obtain ⟨status, body⟩ := sb
    simp only [advancedTargetStep] at h ⊢
    by_cases hst : (status != 200) = true
    · rw [if_pos hst] at h
      rw [valid_errResult_false _ _ (by intro s hs; simp at hs)] at h
      simp at h
    · rw [if_neg hst] at h ⊢
      exact advancedAfterParse_error_none (parse body) body h

/-- If the advanced technique produced a valid result, its `error` field
is `None`. -/
theorem advanced_valid_error_none (o : AdvancedOracle) (url : String)
    (h : _is_valid_result (some (_extract_advanced o url)) = true) :
    (_extract_advanced o url).error = none :=
  advancedTargetStep_error_none o.parse (o.target (homepageVisitOk o)) h

/-- `extract_article` equals the explicit three-rung ladder. -/
theorem extract_article_eq_ladder (w : ExtractorWorld) (url : String) :
    extract_article w url =
      (if _is_valid_result (some (_extract_standard w.std url)) then
        some (withMethod (_extract_standard w.std url) "standard")
      else if _is_valid_result (some (_extract_direct w.direct url)) then
        some (withMethod (_extract_direct w.direct url) "direct_wget")
      else if _is_valid_result (some (_extract_advanced w.adv url)) then
        some (withMethod (_extract_advanced w.adv url) "advanced")
      else none) := by
  simp [extract_article, tryMethods]

/-- Case analysis on a successful `extract_article` call. -/
theorem extract_article_some_cases (w : ExtractorWorld) (url : String) (r : ExtractResult)
    (h : extract_article w url = some r) :
    (_is_valid_result (some (_extract_standard w.std url)) = true
      ∧ r = withMethod (_extract_standard w.std url) "standard")
    ∨ (_is_valid_result (some (_extract_direct w.direct url)) = true
      ∧ r = withMethod (_extract_direct w.direct url) "direct_wget")
    ∨ (_is_valid_result (some (_extract_advanced w.adv url)) = true
      ∧ r = withMethod (_extract_advanced w.adv url) "advanced") := by
  rw [extract_article_eq_ladder] at h
  by_cases h1 : _is_valid_result (some (_extract_standard w.std url)) = true
  · rw [if_pos h1] at h
    exact Or.inl ⟨h1, (Option.some.inj h).symm⟩
  · rw [if_neg h1] at h
    by_cases h2 : _is_valid_result (some (_extract_direct w.direct url)) = true
    · rw [if_pos h2] at h
      exact Or.inr (Or.inl ⟨h2, (Option.some.inj h).symm⟩)
    · rw [if_neg h2] at h
      by_cases h3 : _is_valid_result (some (_extract_advanced w.adv url)) = true
      · rw [if_pos h3] at h
        exact Or.inr (Or.inr ⟨h3, (Option.some.inj h).symm⟩)
      · rw [if_neg h3] at h
        exact absurd h (by simp)

/-- C1: `extract_article` tries exactly the three techniques standard,
direct_wget, advanced, in that fixed order, each technique completing
before the next starts (the ladder is sequential by construction);
it returns the first result passing `_is_valid_result` tagged with the
technique name, and when all three techniques fail it returns `none`.
No exception reaches the caller: every `raise` site of the source is
inside a technique-level or top-level `try/except`, so the embedding is
a total function. -/
theorem extract_article_ladder (w : ExtractorWorld) (url : String) :
    (_is_valid_result (some (_extract_standard w.std url)) = true →
      extract_article w url = some (withMethod (_extract_standard w.std url) "standard"))
    ∧ (_is_valid_result (some (_extract_standard w.std url)) = false →
       _is_valid_result (some (_extract_direct w.direct url)) = true →
      extract_article w url = some (withMethod (_extract_direct w.direct url) "direct_wget"))
    ∧ (_is_valid_result (some (_extract_standard w.std url)) = false →
       _is_valid_result (some (_extract_direct w.direct url)) = false →
       _is_valid_result (some (_extract_advanced w.adv url)) = true →
      extract_article w url = some (withMethod (_extract_advanced w.adv url) "advanced"))
    ∧ (_is_valid_result (some (_extract_standard w.std url)) = false →
       _is_valid_result (some (_extract_direct w.direct url)) = false →
       _is_valid_result (some (_extract_advanced w.adv url)) = false →
      extract_article w url = none) := by
  refine ⟨fun h1 => ?_, fun h1 h2 => ?_, fun h1 h2 h3 => ?_, fun h1 h2 h3 => ?_⟩
  · rw [extract_article_eq_ladder, if_pos h1]
  · rw [extract_article_eq_ladder, if_neg (by simp [h1]), if_pos h2]
  · rw [extract_article_eq_ladder, if_neg (by simp [h1]), if_neg (by simp [h2]), if_pos h3]
  · rw [extract_article_eq_ladder, if_neg (by simp [h1]), if_neg (by simp [h2]),
      if_neg (by simp [h3])]

/-- Witness for C1: with a raising standard download, a non-zero wget
exit and a 403 on the advanced target request, all rungs are invalid and
`extract_article` returns `none`. -/
theorem extract_article_ladder_witness :
    _is_valid_result (some (_extract_standard worldAllFail.std "http://u")) = false
    ∧ _is_valid_result (some (_extract_direct worldAllFail.direct "http://u")) = false
    ∧ _is_valid_result (some (_extract_advanced worldAllFail.adv "http://u")) = false
    ∧ extract_article worldAllFail "http://u" = none :=
  ⟨by decide, by decide, by decide,
   (extract_article_ladder worldAllFail "http://u").2.2.2 (by decide) (by decide) (by decide)⟩

/-- C2: any result returned by `extract_article` has a non-null,
non-empty `text` whose stripped length strictly exceeds the 100-character
minimum threshold: an invalid candidate is never returned. -/
theorem extract_article_min_length (w : ExtractorWorld) (url : String) (r : ExtractResult)
    (h : extract_article w url = some r) :
    ∃ s, r.text = some s ∧ s ≠ "" ∧ (pyStrip s).length > 100 := by
  have hmin : MIN_TEXT_LENGTH = 100 := rfl
  rcases extract_article_some_cases w url r h with ⟨hv, hr⟩ | ⟨hv, hr⟩ | ⟨hv, hr⟩ <;>
  · subst hr
    obtain ⟨s, hs, hne, hlen⟩ := valid_elim _ hv
    rw [hmin] at hlen
    exact ⟨s, by rw [withMethod_text]; exact hs, hne, hlen⟩

/-- Witness for C2: a standard-technique success with a 101-character
text. -/
theorem extract_article_min_length_witness :
    extract_article worldStdOk "http://u"
      = some (withMethod (_extract_standard worldStdOk.std "http://u") "standard")
    ∧ ∃ s, (withMethod (_extract_standard worldStdOk.std "http://u") "standard").text = some s
        ∧ s ≠ "" ∧ (pyStrip s).length > 100 :=
  ⟨by decide, extract_article_min_length worldStdOk "http://u" _ (by decide)⟩

/-- C10: every result returned by `extract_article` carries
`error = None` (success dictionaries are built by
`_build_article_result`) and an `extraction_method` equal to exactly the
name of the technique that produced it. -/
theorem extract_article_success_fields (w : ExtractorWorld) (url : String) (r : ExtractResult)
    (h : extract_article w url = some r) :
    r.error = none ∧
    ((r.extraction_method = some "standard"
        ∧ r = withMethod (_extract_standard w.std url) "standard")
     ∨ (r.extraction_method = some "direct_wget"
        ∧ r = withMethod (_extract_direct w.direct url) "direct_wget")
     ∨ (r.extraction_method = some "advanced"
        ∧ r = withMethod (_extract_advanced w.adv url) "advanced")) := by
  rcases extract_article_some_cases w url r h with ⟨hv, hr⟩ | ⟨hv, hr⟩ | ⟨hv, hr⟩
  · subst hr
    refine ⟨?_, Or.inl ⟨withMethod_method _ _, rfl⟩⟩
    rw [withMethod_error]
    exact standard_valid_error_none w.std url hv
  · subst hr
    refine ⟨?_, Or.inr (Or.inl ⟨withMethod_method _ _, rfl⟩)⟩
    rw [withMethod_error]
    exact direct_valid_error_none w.direct url hv
  · subst hr
    refine ⟨?_, Or.inr (Or.inr ⟨withMethod_method _ _, rfl⟩)⟩
    rw [withMethod_error]
    exact advanced_valid_error_none w.adv url hv

/-- Witness for C10: a direct-technique success after a standard
failure. -/
theorem extract_article_success_fields_witness :
    extract_article worldDirectOk "http://u"
      = some (withMethod (_extract_direct worldDirectOk.direct "http://u") "direct_wget")
    ∧ (withMethod (_extract_direct worldDirectOk.direct "http://u") "direct_wget").error = none :=
  ⟨by decide, (extract_article_success_fields worldDirectOk "http://u" _ (by decide)).1⟩

/-- C6: in `_extract_advanced`, a non-200 status on the single
target-URL request is a hard failure: the technique returns the failure
dictionary with `text = None` immediately (an invalid result), consulting
the parser for nothing and issuing no further request; and an exception
during the preliminary homepage visit is swallowed, the technique
proceeding to the target request exactly as with a completed-but-failed
homepage visit. -/
theorem advanced_non200_and_homepage_swallowed (o : AdvancedOracle) (url : String) :
    (∀ status body, o.target (homepageVisitOk o) = .ok (status, body) → status ≠ 200 →
       _extract_advanced o url
           = errResult ("Failed with status code " ++ toString status) none
         ∧ _is_valid_result (some (_extract_advanced o url)) = false)
    ∧ (∀ e, o.homepage = .error e →
        _extract_advanced o url = advancedTargetStep o.parse (o.target false)) := by
  constructor
  · intro status body htgt hne
    have heq : _extract_advanced o url
        = advancedTargetStep o.parse (o.target (homepageVisitOk o)) := rfl
    have hb : (status != 200) = true := by simpa [bne_iff_ne] using hne
    have hval : _extract_advanced o url
        = errResult ("Failed with status code " ++ toString status) none := by
      rw [heq, htgt]
      simp only [advancedTargetStep]
      rw [if_pos hb]
    refine ⟨hval, ?_⟩
    rw [hval]
    exact valid_errResult_false _ _ (by intro s hs; simp at hs)
  · intro e he
    have hv : homepageVisitOk o = false := by simp [homepageVisitOk, he]
    rw [show _extract_advanced o url
        = advancedTargetStep o.parse (o.target (homepageVisitOk o)) from rfl, hv]

/-- Witness for C6: a raising homepage visit followed by a 503 on the
target request. -/
theorem advanced_non200_and_homepage_swallowed_witness :
    advHomepageErr.target (homepageVisitOk advHomepageErr) = .ok (503, "unavailable")
    ∧ (503 : Nat) ≠ 200
    ∧ advHomepageErr.homepage = .error "homepage timeout"
    ∧ (_extract_advanced advHomepageErr "http://u"
          = errResult ("Failed with status code " ++ toString (503 : Nat)) none
        ∧ _is_valid_result (some (_extract_advanced advHomepageErr "http://u")) = false)
    ∧ _extract_advanced advHomepageErr "http://u"
        = advancedTargetStep advHomepageErr.parse (advHomepageErr.target false) :=
  ⟨rfl, by decide, rfl,
   (advanced_non200_and_homepage_swallowed advHomepageErr "http://u").1 503 "unavailable"
     rfl (by decide),
   (advanced_non200_and_homepage_swallowed advHomepageErr "http://u").2 "homepage timeout" rfl⟩

/-- The if-chain of `_is_wordpress_site` collapses to a disjunction. -/
theorem if_true_or (c b : Bool) : (if c then true else b) = (c || b) := by
  cases c <;> simp

/-- C9: `_is_wordpress_site` is a pure, deterministic function of
`(html_content, url)`: the `debug_mode` processor state cannot change the
result (it only gates two log lines), and the result is exactly the
short-circuit disjunction of the eleven detection groups, so two
invocations with identical arguments always agree. -/
theorem is_wordpress_site_pure (d1 d2 : Bool) (h u : String) :
    _is_wordpress_site d1 h u = _is_wordpress_site d2 h u
    ∧ _is_wordpress_site d1 h u =
        (reSearchS wpMetaGenRe h || reSearchS wpResourceRe h
         || wp_classes.any (fun c => reSearchS (wpClassRe c) h)
         || (u != "" && (strContains u "/wp-content/" || strContains u "/wp-includes/"))
         || reSearchS wpBloggerRe h
         || (u != "" && reSearchS wpPermalinkRe u)
         || wpArticleRes.any (fun r => reSearchS r h)
         || wpJsRes.any (fun r => reSearchS r h)
         || reSearchS wpMarkdownRe h
         || wpEnhancedRes.any (fun r => reSearchS r h)
         || wpHeaderFooterRes.any (fun r => reSearchS r h)) := by
  refine ⟨rfl, ?_⟩
  unfold _is_wordpress_site
  simp only [if_true_or, Bool.or_assoc, Bool.or_false]

/-- C4: `_determine_best_strategy` returns `extract` exactly when the
page is classified as a templated blog, or the complex-layout signals
hold and at least two of the tag families div/section/article each occur
more than 50 times, or the URL domain matches the deny-list; in every
other case it returns `minimal`, and the result is always one of those
two strings.  (`chooseStrategySpec` is written from the words of the
specification; the interesting step is that the loop-computed
`nested_level >= 2` equals the two-of-three condition.) -/
theorem determine_strategy_matches_spec (dbg : Bool) (h u : String) :
    _determine_best_strategy dbg h u = chooseStrategySpec dbg h u
    ∧ (_determine_best_strategy dbg h u = "extract"
       ∨ _determine_best_strategy dbg h u = "minimal") := by
  constructor
  · unfold _determine_best_strategy chooseStrategySpec
    cases hw : _is_wordpress_site dbg h u
    · simp only [Bool.false_eq_true, if_false]
      by_cases h1 : reCountS (reOpenTag "div") h > 50 <;>
        by_cases h2 : reCountS (reOpenTag "section") h > 50 <;>
          by_cases h3 : reCountS (reOpenTag "article") h > 50 <;>
            simp [List.foldl_cons, List.foldl_nil, h1, h2, h3]
    · simp
  · unfold _determine_best_strategy
    cases hw : _is_wordpress_site dbg h u
    · simp only [Bool.false_eq_true, if_false]
      split
      · exact Or.inl rfl
      · exact Or.inr rfl
    · simp

/-- Every raster outcome leaves the cleaned-up file set. -/
theorem rasterPhase_fs (fsEnd : List String) (final : String) (b : List Nat)
    (o : RunOutcome) : (rasterPhase fsEnd final b o).fs = fsEnd := by
  cases o with
  | success rc out err =>
    simp only [rasterPhase]
    split
    · rfl
    · split <;> rfl
  | timeout => rfl
  | exc m => rfl

/-- Every raster outcome records the written HTML. -/
theorem rasterPhase_written (fsEnd : List String) (final : String) (b : List Nat)
    (o : RunOutcome) : (rasterPhase fsEnd final b o).writtenHtml = final := by
  cases o with
  | success rc out err =>
    simp only [rasterPhase]
    split
    · rfl
    · split <;> rfl
  | timeout => rfl
  | exc m => rfl

/-- The timeout outcome returns no PDF. -/
theorem rasterPhase_timeout_pdf (fsEnd : List String) (final : String) (b : List Nat) :
    (rasterPhase fsEnd final b .timeout).pdf = none := rfl

/-- The finally-block filter removes exactly the two fresh temporary
paths. -/
theorem cleanup_filter_eq (a b : String) (fs0 : List String)
    (h1 : a ∉ fs0) (h2 : b ∉ fs0) (h3 : a ≠ b) :
    (b :: a :: fs0).filter (fun p => !(p == a) && !(p == b)) = fs0 := by
  have hba : (b == a) = false := by simp [Ne.symm h3]
  have hbb : (b == b) = true := by simp
  have haa : (a == a) = true := by simp
  simp only [List.filter_cons, hba, hbb, haa, Bool.not_true, Bool.not_false,
    Bool.true_and, Bool.and_false, Bool.false_and, if_false]
  exact List.filter_eq_self.mpr fun x hx => by
    have hxa : x ≠ a := fun hcontra => h1 (hcontra ▸ hx)
    have hxb : x ≠ b := fun hcontra => h2 (hcontra ▸ hx)
    simp [hxa, hxb]

/-- C7: on every exit path of `convert_html_to_pdf` — success, non-zero
rasterizer exit, the 120-second timeout, or any other exception — the
two temporary files created during the call are deleted before it
returns, leaving the file system exactly as it was; and on the timeout
path the call returns `none`. -/
theorem convert_html_to_pdf_cleanup (dbg : Bool) (ops : HtmlOps) (w : ExtractorWorld)
    (io3 : RasterIO) (html0 url : String) (pl inc : Bool) (iq : Nat) (strat0 : String)
    (h1 : io3.htmlTmp ∉ io3.fs0) (h2 : io3.pdfTmp ∉ io3.fs0)
    (h3 : io3.htmlTmp ≠ io3.pdfTmp) :
    (convert_html_to_pdf dbg ops w io3 html0 url pl inc iq strat0).fs = io3.fs0
    ∧ io3.htmlTmp ∉ (convert_html_to_pdf dbg ops w io3 html0 url pl inc iq strat0).fs
    ∧ io3.pdfTmp ∉ (convert_html_to_pdf dbg ops w io3 html0 url pl inc iq strat0).fs
    ∧ (io3.run (convertFinalHtml dbg ops w html0 url inc strat0) = .timeout →
        (convert_html_to_pdf dbg ops w io3 html0 url pl inc iq strat0).pdf = none) := by
  have hfs : (convert_html_to_pdf dbg ops w io3 html0 url pl inc iq strat0).fs = io3.fs0 := by
    unfold convert_html_to_pdf
    rw [rasterPhase_fs]
    exact cleanup_filter_eq io3.htmlTmp io3.pdfTmp io3.fs0 h1 h2 h3
  refine ⟨hfs, ?_, ?_, ?_⟩
  · rw [hfs]; exact h1
  · rw [hfs]; exact h2
  · intro ht
    show (rasterPhase ((io3.pdfTmp :: io3.htmlTmp :: io3.fs0).filter
        (fun p => !(p == io3.htmlTmp) && !(p == io3.pdfTmp)))
        (convertFinalHtml dbg ops w html0 url inc strat0)
        (io3.pdfOut (convertFinalHtml dbg ops w html0 url inc strat0))
        (io3.run (convertFinalHtml dbg ops w html0 url inc strat0))).pdf = none
    rw [ht]
    exact rasterPhase_timeout_pdf _ _ _

/-- Witness for C7: the timeout fixture with fresh temporary paths. -/
theorem convert_html_to_pdf_cleanup_witness :
    ioTimeout.htmlTmp ∉ ioTimeout.fs0
    ∧ ioTimeout.pdfTmp ∉ ioTimeout.fs0
    ∧ ioTimeout.htmlTmp ≠ ioTimeout.pdfTmp
    ∧ ((convert_html_to_pdf false opsId worldAllFail ioTimeout "<p>x</p>" "" true false 85
          "minimal").fs = ioTimeout.fs0
       ∧ ioTimeout.htmlTmp ∉ (convert_html_to_pdf false opsId worldAllFail ioTimeout "<p>x</p>"
          "" true false 85 "minimal").fs
       ∧ ioTimeout.pdfTmp ∉ (convert_html_to_pdf false opsId worldAllFail ioTimeout "<p>x</p>"
          "" true false 85 "minimal").fs
       ∧ (ioTimeout.run (convertFinalHtml false opsId worldAllFail "<p>x</p>" "" false
            "minimal") = .timeout →
          (convert_html_to_pdf false opsId worldAllFail ioTimeout "<p>x</p>" "" true false 85
            "minimal").pdf = none)) :=
  ⟨by decide, by decide, by decide,
   convert_html_to_pdf_cleanup false opsId worldAllFail ioTimeout "<p>x</p>" "" true false 85
     "minimal" (by decide) (by decide) (by decide)⟩

/-- Rebuilding a string from its character list. -/
theorem mk_toList (s : String) : (⟨s.toList⟩ : String) = s := by cases s; rfl

/-- `toList` is injective. -/
theorem toList_inj (a b : String) (h : a.toList = b.toList) : a = b := by
  cases a; cases b; exact congrArg String.mk h

/-- `headEq` is prefix matching. -/
theorem headEq_iff (p s : List Char) : headEq p s = true ↔ ∃ t, s = p ++ t := by
  induction p generalizing s with
  | nil =>
    constructor
    · intro _; exact ⟨s, rfl⟩
    · intro _; rfl
  | cons c p ih =>
    cases s with
    | nil =>
      simp only [headEq]
      constructor
      · intro h; exact absurd h (by decide)
      · rintro ⟨t, ht⟩; exact absurd ht (by simp)
    | cons d s' =>
      simp only [headEq, Bool.and_eq_true, beq_iff_eq]
      constructor
      · rintro ⟨hcd, h⟩
        obtain ⟨t, ht⟩ := (ih s').mp h
        subst hcd
        exact ⟨t, by rw [ht]; rfl⟩
      · rintro ⟨t, ht⟩
        injection ht with h1 h2
        exact ⟨h1.symm, (ih s').mpr ⟨t, h2⟩⟩

/-- A list starts with itself. -/
theorem headEq_append (p t : List Char) : headEq p (p ++ t) = true :=
  (headEq_iff p (p ++ t)).mpr ⟨t, rfl⟩

/-- Decomposition of a failed containment check. -/
theorem hasSub_cons_false (p : List Char) (c : Char) (cs : List Char)
    (h : hasSubList p (c :: cs) = false) :
    headEq p (c :: cs) = false ∧ hasSubList p cs = false := by
  rw [show hasSubList p (c :: cs) = (headEq p (c :: cs) || hasSubList p cs) from rfl] at h
  exact Bool.or_eq_false_iff.mp h

/-- A list containing the pattern in the middle passes the containment
check. -/
theorem hasSub_middle (p a b : List Char) : hasSubList p (a ++ (p ++ b)) = true := by
  induction a with
  | nil =>
    show hasSubList p (p ++ b) = true
    cases p with
    | nil => cases b <;> rfl
    | cons q qs =>
      show (headEq (q :: qs) ((q :: qs) ++ b) || _) = true
      rw [headEq_append, Bool.true_or]
  | cons c a' ih =>
    show (headEq p (c :: (a' ++ (p ++ b))) || hasSubList p (a' ++ (p ++ b))) = true
    rw [ih, Bool.or_true]

/-- `str.replace` leaves a string without the pattern unchanged. -/
theorem replChars_self (p rep s : List Char) (h : hasSubList p s = false) :
    replChars p rep s = s := by
  induction s with
  | nil => simp only [replChars]
  | cons c cs ih =>
    obtain ⟨h1, h2⟩ := hasSub_cons_false p c cs h
    simp only [replChars]
    rw [if_neg]
    · rw [ih h2]
    · rintro ⟨-, hcontra⟩
      rw [h1] at hcontra
      exact absurd hcontra (by decide)

/-- The scan of `str.replace` across `a ++ p ++ b`, when `a` does not
contain the border-free pattern `p`, replaces exactly the middle
occurrence first. -/
theorem replChars_split (p rep a b : List Char) (hp : p ≠ [])
    (hbf : ∀ m, m < p.length → 1 ≤ m → p.drop m ≠ p.take (p.length - m))
    (ha : hasSubList p a = false) :
    replChars p rep (a ++ (p ++ b)) = a ++ (rep ++ replChars p rep b) := by
  induction a with
  | nil =>
    show replChars p rep (p ++ b) = rep ++ replChars p rep b
    cases p with
    | nil => exact absurd rfl hp
    | cons q qs =>
      show replChars (q :: qs) rep (q :: (qs ++ b)) = rep ++ replChars (q :: qs) rep b
      simp only [replChars]
      rw [if_pos ⟨by simp, headEq_append (q :: qs) b⟩]
      congr 1
      show replChars (q :: qs) rep ((q :: (qs ++ b)).drop (qs.length + 1)) = _
      rw [List.drop_succ_cons, List.drop_left]
  | cons c a' ih =>
    obtain ⟨h1, h2⟩ := hasSub_cons_false p c a' ha
    have hne : headEq p (c :: (a' ++ (p ++ b))) = false := by
      by_contra hcon
      have htrue : headEq p (c :: (a' ++ (p ++ b))) = true := by
        revert hcon; cases headEq p (c :: (a' ++ (p ++ b))) <;> simp
      obtain ⟨t, ht⟩ := (headEq_iff _ _).mp htrue
      have ht' : (c :: a') ++ (p ++ b) = p ++ t := by rw [List.cons_append]; exact ht
      by_cases hlen : p.length ≤ (c :: a').length
      · have h4 := congrArg (List.take p.length) ht'
        rw [List.take_append_of_le_length hlen, List.take_left] at h4
        have hsplit := (List.take_append_drop p.length (c :: a')).symm
        rw [h4] at hsplit
        have hhd : headEq p (c :: a') = true :=
          (headEq_iff _ _).mpr ⟨(c :: a').drop p.length, hsplit⟩
        rw [h1] at hhd
        exact absurd hhd (by decide)
      · push_neg at hlen
        have hm1 : 1 ≤ (c :: a').length := by rw [List.length_cons]; omega
        have h4 := congrArg (List.take p.length) ht'
        rw [List.take_append_eq_append_take, List.take_left,
          List.take_of_length_le (le_of_lt hlen),
          List.take_append_of_le_length (by omega)] at h4
        have hd := congrArg (List.drop (c :: a').length) h4.symm
        rw [List.drop_left] at hd
        exact absurd hd (hbf (c :: a').length hlen hm1)
    show replChars p rep (c :: (a' ++ (p ++ b))) = c :: (a' ++ (rep ++ replChars p rep b))
    simp only [replChars]
    rw [if_neg]
    · rw [ih h2]
    · rintro ⟨-, hcontra⟩
      rw [hne] at hcontra
      exact absurd hcontra (by decide)

/-- Containment fails across an append when it fails on both sides and no
occurrence can span the junction. -/
theorem hasSub_append_false (p a b : List Char)
    (ha : hasSubList p a = false) (hb : hasSubList p b = false)
    (hspan : ∀ m, m < p.length → 1 ≤ m → headEq (p.drop m) b = false) :
    hasSubList p (a ++ b) = false := by
  induction a with
  | nil => exact hb
  | cons c a' ih =>
    obtain ⟨h1, h2⟩ := hasSub_cons_false p c a' ha
    have hne : headEq p (c :: (a' ++ b)) = false := by
      by_contra hcon
      have htrue : headEq p (c :: (a' ++ b)) = true := by
        revert hcon; cases headEq p (c :: (a' ++ b)) <;> simp
      obtain ⟨t, ht⟩ := (headEq_iff _ _).mp htrue
      have ht' : (c :: a') ++ b = p ++ t := by rw [List.cons_append]; exact ht
      by_cases hlen : p.length ≤ (c :: a').length
      · have h4 := congrArg (List.take p.length) ht'
        rw [List.take_append_of_le_length hlen, List.take_left] at h4
        have hsplit := (List.take_append_drop p.length (c :: a')).symm
        rw [h4] at hsplit
        have hhd : headEq p (c :: a') = true :=
          (headEq_iff _ _).mpr ⟨(c :: a').drop p.length, hsplit⟩
        rw [h1] at hhd
        exact absurd hhd (by decide)
      · push_neg at hlen
        have hm1 : 1 ≤ (c :: a').length := by rw [List.length_cons]; omega
        have h4 := congrArg (List.take p.length) ht'
        rw [List.take_append_eq_append_take, List.take_left,
          List.take_of_length_le (le_of_lt hlen)] at h4
        have hd := congrArg (List.drop (c :: a').length) h4.symm
        rw [List.drop_left] at hd
        have hsplit := (List.take_append_drop (p.length - (c :: a').length) b).symm
        rw [← hd] at hsplit
        have hprefix : headEq (p.drop (c :: a').length) b = true :=
          (headEq_iff _ _).mpr ⟨b.drop (p.length - (c :: a').length), hsplit⟩
        rw [hspan (c :: a').length hlen hm1] at hprefix
        exact absurd hprefix (by decide)
    show (headEq p (c :: (a' ++ b)) || hasSubList p (a' ++ b)) = false
    rw [hne, ih h2]
    rfl

/-- `</head>` has no non-trivial border: no occurrence of it can span a
junction with a copy of itself. -/
theorem headTag_border_free : ∀ m, m < ("</head>".toList).length → 1 ≤ m →
    ("</head>".toList).drop m ≠ ("</head>".toList).take (("</head>".toList).length - m) := by
  decide

/-- The repair stylesheet itself contains no `</head>`. -/
theorem css_no_headTag : hasSubList ("</head>".toList) layoutRepairCss.toList = false := by
  decide

/-- No proper suffix of `</head>` is a prefix of the repair stylesheet:
an occurrence cannot span a junction into the stylesheet. -/
theorem css_no_span : ∀ m, m < ("</head>".toList).length → 1 ≤ m →
    headEq (("</head>".toList).drop m) layoutRepairCss.toList = false := by
  decide

/-- One application of the repair-stylesheet injection on a string split
around its `</head>` occurrences: with no occurrence in `a` or `post`,
the stylesheet is inserted exactly once, immediately before `</head>`. -/
theorem injectRepairCss_split (a post : String)
    (ha : hasSubList ("</head>".toList) a.toList = false)
    (hpost : hasSubList ("</head>".toList) post.toList = false) :
    injectRepairCss (a ++ "</head>" ++ post) = a ++ layoutRepairCss ++ "</head>" ++ post := by
  have hlist : (a ++ "</head>" ++ post).toList
      = a.toList ++ (("</head>".toList) ++ post.toList) := by
    rw [toList_append, toList_append, List.append_assoc]
  have hguard : strContains (a ++ "</head>" ++ post) "</head>" = true := by
    show hasSubList ("</head>".toList) (a ++ "</head>" ++ post).toList = true
    rw [hlist]
    exact hasSub_middle _ _ _
  unfold injectRepairCss
  rw [if_pos hguard]
  apply toList_inj
  show (pyReplace (a ++ "</head>" ++ post) "</head>" (layoutRepairCss ++ "</head>")).toList = _
  unfold pyReplace
  rw [show (String.mk (replChars ("</head>".toList) ((layoutRepairCss ++ "</head>").toList)
      ((a ++ "</head>" ++ post).toList))).toList
      = replChars ("</head>".toList) ((layoutRepairCss ++ "</head>").toList)
        ((a ++ "</head>" ++ post).toList) from rfl]
  rw [hlist, toList_append layoutRepairCss "</head>"]
  rw [replChars_split _ _ _ _ (by decide) headTag_border_free ha]
  rw [replChars_self _ _ _ hpost]
  rw [toList_append, toList_append, toList_append]
  simp only [List.append_assoc]

/-- C5 (amended): a single application of the repair-stylesheet injection
to HTML with one `</head>` (and the pattern in neither surrounding part)
inserts the stylesheet exactly once, immediately before `</head>`; but
the step is not idempotent: a second application inserts a second copy of
the stylesheet in front of the same `</head>`. -/
theorem injectRepairCss_once_and_twice (pre post : String)
    (hpre : strContains pre "</head>" = false)
    (hpost : strContains post "</head>" = false) :
    injectRepairCss (pre ++ "</head>" ++ post)
        = pre ++ layoutRepairCss ++ "</head>" ++ post
    ∧ injectRepairCss (injectRepairCss (pre ++ "</head>" ++ post))
        = pre ++ layoutRepairCss ++ layoutRepairCss ++ "</head>" ++ post := by
  have hpre' : hasSubList ("</head>".toList) pre.toList = false := hpre
  have hpost' : hasSubList ("</head>".toList) post.toList = false := hpost
  have h1 := injectRepairCss_split pre post hpre' hpost'
  refine ⟨h1, ?_⟩
  rw [h1]
  have hmid : hasSubList ("</head>".toList) (pre ++ layoutRepairCss).toList = false := by
    rw [toList_append]
    exact hasSub_append_false _ _ _ hpre' css_no_headTag css_no_span
  exact injectRepairCss_split (pre ++ layoutRepairCss) post hmid hpost'

/-- Witness for the amended C5 statement. -/
theorem injectRepairCss_once_and_twice_witness :
    strContains "<html><head>" "</head>" = false
    ∧ strContains "<body></body></html>" "</head>" = false
    ∧ (injectRepairCss ("<html><head>" ++ "</head>" ++ "<body></body></html>")
        = "<html><head>" ++ layoutRepairCss ++ "</head>" ++ "<body></body></html>"
      ∧ injectRepairCss (injectRepairCss ("<html><head>" ++ "</head>" ++ "<body></body></html>"))
        = "<html><head>" ++ layoutRepairCss ++ layoutRepairCss ++ "</head>"
            ++ "<body></body></html>") :=
  ⟨by decide, by decide,
   injectRepairCss_once_and_twice "<html><head>" "<body></body></html>" (by decide) (by decide)⟩

/-- Counterexample to C5 as stated: on `"<head></head>"`, which already
received the stylesheet once, a second run of the injection adds a second
copy of the stylesheet block (the output differs from the single-run
output by one more copy of `layoutRepairCss`, which is non-empty), so the
stylesheet does not appear exactly once after running the injection
twice. -/
theorem injectRepairCss_not_idempotent :
    "<head>" ++ "</head>" ++ "" = "<head></head>"
    ∧ injectRepairCss (injectRepairCss ("<head>" ++ "</head>" ++ ""))
        = "<head>" ++ layoutRepairCss ++ layoutRepairCss ++ "</head>" ++ ""
    ∧ injectRepairCss ("<head>" ++ "</head>" ++ "")
        = "<head>" ++ layoutRepairCss ++ "</head>" ++ ""
    ∧ layoutRepairCss ≠ ""
    ∧ injectRepairCss (injectRepairCss ("<head>" ++ "</head>" ++ ""))
        ≠ injectRepairCss ("<head>" ++ "</head>" ++ "") := by
  have h := injectRepairCss_once_and_twice "<head>" "" (by decide) (by decide)
  refine ⟨by decide, h.2, h.1, by decide, ?_⟩
  rw [h.2, h.1]
  intro hcontra
  have hlen := congrArg String.length hcontra
  simp only [String.length_append] at hlen
  have hcss : layoutRepairCss.length > 0 := by decide
  omega

/-- Appending on the right preserves the first two characters. -/
theorem startsLtBang_append (s t : String) (h : startsLtBang s) : startsLtBang (s ++ t) := by
  obtain ⟨r, hr⟩ := h
  exact ⟨r ++ t.toList, by rw [toList_append, hr]; rfl⟩

/-- Every output of `_build_clean_article_html` starts with
`<!DOCTYPE html>`. -/
theorem buildClean_startsLtBang (uj : String → String → String) (t : Option String)
    (x : String) (ti : Option String) (im : List String) (u : String) (b : Bool) :
    startsLtBang (_build_clean_article_html uj t x ti im u b) := by
  unfold _build_clean_article_html
  repeat apply startsLtBang_append
  exact ⟨"<!DOCTYPE html>\n".toList.drop 2, by decide⟩

/-- The first character pair of `</head>` and of `<!` differ at the
second position, so the repair-CSS injection preserves a leading `<!`. -/
theorem injectRepairCss_startsLtBang (s : String) (h : startsLtBang s) :
    startsLtBang (injectRepairCss s) := by
  obtain ⟨r, hr⟩ := h
  unfold injectRepairCss
  split
  · show startsLtBang (pyReplace s "</head>" (layoutRepairCss ++ "</head>"))
    unfold pyReplace
    refine ⟨replChars ("</head>".toList) ((layoutRepairCss ++ "</head>").toList) r, ?_⟩
    rw [show (String.mk (replChars ("</head>".toList) ((layoutRepairCss ++ "</head>").toList)
        s.toList)).toList
        = replChars ("</head>".toList) ((layoutRepairCss ++ "</head>").toList) s.toList from rfl]
    rw [hr]
    have hpat : "</head>".toList = ['<', '/', 'h', 'e', 'a', 'd', '>'] := by decide
    rw [hpat]
    simp only [replChars]
    rw [if_neg (by rintro ⟨-, hc⟩; simp [headEq] at hc)]
    rw [if_neg (by rintro ⟨-, hc⟩; simp [headEq] at hc)]
  · exact ⟨r, hr⟩

/-- Nothing that starts with `<!` equals the eight-character page
`<p>x</p>`. -/
theorem startsLtBang_ne_pxp (s : String) (h : startsLtBang s) : s ≠ "<p>x</p>" := by
  obtain ⟨r, hr⟩ := h
  intro hcontra
  rw [hcontra] at hr
  rw [show "<p>x</p>".toList = ['<', 'p', '>', 'x', '<', '/', 'p', '>'] from by decide] at hr
  simp at hr

/-- C3 (amended): when the resolved strategy is `minimal` and the quality
gate rejects the minimal candidate, the HTML passed to rasterization is
the (repair-CSS-injected) output of `_build_clean_article_html` whenever
the re-invoked Article Extractor returns a result with truthy text; when
the extractor returns nothing, or a result without truthy text, the
minimal candidate itself is passed on instead. -/
theorem convert_minimal_gate_fallback (dbg : Bool) (ops : HtmlOps) (w : ExtractorWorld)
    (html0 url : String) (inc : Bool) (strat0 : String)
    (hstrat : resolvedStrategy dbg html0 url strat0 = "minimal")
    (hgate : _is_valid_processed_html (minimalCandidate dbg ops html0 url inc) = false) :
    (∀ r, extract_article w url = some r → pyTruthy r.text = true →
      convertFinalHtml dbg ops w html0 url inc strat0
        = injectRepairCss (buildFromArticle ops r url inc))
    ∧ (extract_article w url = none →
      convertFinalHtml dbg ops w html0 url inc strat0
        = injectRepairCss (minimalCandidate dbg ops html0 url inc))
    ∧ (∀ r, extract_article w url = some r → pyTruthy r.text = false →
      convertFinalHtml dbg ops w html0 url inc strat0
        = injectRepairCss (minimalCandidate dbg ops html0 url inc)) := by
  have hne : (("minimal" : String) == "extract") = false := by decide
  refine ⟨?_, ?_, ?_⟩
  · intro r hr htr
    unfold convertFinalHtml convertCleanedHtml
    rw [hstrat]
    simp [hne, hgate, hr, htr]
  · intro hr
    unfold convertFinalHtml convertCleanedHtml
    rw [hstrat]
    simp [hne, hgate, hr]
  · intro r hr htr
    unfold convertFinalHtml convertCleanedHtml
    rw [hstrat]
    simp [hne, hgate, hr, htr]

/-- Witness for the amended C3: explicit `minimal` request, a failing
gate, and a successful standard extraction. -/
theorem convert_minimal_gate_fallback_witness :
    resolvedStrategy false "<p>y</p>" "http://e.com/w" "minimal" = "minimal"
    ∧ _is_valid_processed_html (minimalCandidate false opsId "<p>y</p>" "http://e.com/w" false)
        = false
    ∧ ((∀ r, extract_article worldStdOk "http://e.com/w" = some r → pyTruthy r.text = true →
          convertFinalHtml false opsId worldStdOk "<p>y</p>" "http://e.com/w" false "minimal"
            = injectRepairCss (buildFromArticle opsId r "http://e.com/w" false))
       ∧ (extract_article worldStdOk "http://e.com/w" = none →
          convertFinalHtml false opsId worldStdOk "<p>y</p>" "http://e.com/w" false "minimal"
            = injectRepairCss (minimalCandidate false opsId "<p>y</p>" "http://e.com/w" false))
       ∧ (∀ r, extract_article worldStdOk "http://e.com/w" = some r → pyTruthy r.text = false →
          convertFinalHtml false opsId worldStdOk "<p>y</p>" "http://e.com/w" false "minimal"
            = injectRepairCss (minimalCandidate false opsId "<p>y</p>" "http://e.com/w" false))) :=
  ⟨by decide, by decide,
   convert_minimal_gate_fallback false opsId worldStdOk "<p>y</p>" "http://e.com/w" false
     "minimal" (by decide) (by decide)⟩

/-- Counterexample to C3 as stated: on the page `<p>x</p>` the strategy
resolves to `minimal`, the quality gate fails (no content container), all
three extraction techniques fail, and the HTML passed to rasterization is
the minimal candidate `<p>x</p>` itself — which no output of the extract
transform (every one starts with `<!DOCTYPE html>`, before and after CSS
injection) can equal. -/
theorem convert_minimal_gate_counterexample :
    resolvedStrategy false "<p>x</p>" "http://e.com/a" "auto" = "minimal"
    ∧ _is_valid_processed_html (minimalCandidate false opsId "<p>x</p>" "http://e.com/a" false)
        = false
    ∧ extract_article worldAllFail "http://e.com/a" = none
    ∧ (convert_html_to_pdf false opsId worldAllFail ioOk "<p>x</p>" "http://e.com/a" true false
        85 "auto").writtenHtml = "<p>x</p>"
    ∧ minimalCandidate false opsId "<p>x</p>" "http://e.com/a" false = "<p>x</p>"
    ∧ ∀ (uj : String → String → String) (t : Option String) (x : String) (ti : Option String)
        (im : List String) (u : String) (b : Bool),
        injectRepairCss (_build_clean_article_html uj t x ti im u b) ≠ "<p>x</p>" := by
  refine ⟨by decide, by decide, by decide, by decide, by decide, ?_⟩
  intro uj t x ti im u b
  exact startsLtBang_ne_pxp _ (injectRepairCss_startsLtBang _ (buildClean_startsLtBang uj t x ti im u b))

/-- Attribute lookup on a cons cell. -/
theorem getAttr_cons (k0 v0 : String) (rest : List (String × String)) (k : String) :
    getAttr ((k0, v0) :: rest) k = if (k0 == k) = true then some v0 else getAttr rest k := by
  by_cases h : (k0 == k) = true
  · rw [if_pos h]
    simp [getAttr, List.find?, h]
  · rw [if_neg h]
    have hf : (k0 == k) = false := Bool.eq_false_iff.mpr h
    simp [getAttr, List.find?, hf]

/-- Setting an attribute makes it readable. -/
theorem getAttr_setAttr_same (attrs : List (String × String)) (k v : String) :
    getAttr (setAttr attrs k v) k = some v := by
  induction attrs with
  | nil => simp [setAttr, getAttr_cons]
  | cons kv rest ih =>
    obtain ⟨k0, v0⟩ := kv
    simp only [setAttr]
    by_cases h : (k0 == k) = true
    · rw [if_pos h, getAttr_cons]
      simp
    · rw [if_neg h, getAttr_cons, if_neg h]
      exact ih

/-- Setting an attribute leaves the others unchanged. -/
theorem getAttr_setAttr_other (attrs : List (String × String)) (k k' v : String)
    (h : k ≠ k') :
    getAttr (setAttr attrs k v) k' = getAttr attrs k' := by
  have hkk : (k == k') = false := by simp [h]
  induction attrs with
  | nil =>
    simp only [setAttr]
    rw [getAttr_cons, hkk]
    simp
  | cons kv rest ih =>
    obtain ⟨k0, v0⟩ := kv
    simp only [setAttr]
    by_cases h0 : (k0 == k) = true
    · rw [if_pos h0, getAttr_cons, hkk]
      have hk0 : k0 = k := by simpa using h0
      rw [getAttr_cons]
      subst hk0
      rw [hkk]
      simp
    · rw [if_neg h0, getAttr_cons, getAttr_cons]
      by_cases h1 : (k0 == k') = true
      · rw [if_pos h1, if_pos h1]
      · rw [if_neg h1, if_neg h1]
        exact ih

/-- Left-stripping `x ++ m` keeps `m` as a suffix when `m` starts with a
non-whitespace character. -/
theorem dropWhile_append_suffix (x m m0 : List Char) (c0 : Char)
    (hc : m = c0 :: m0) (hc0 : pyIsSpace c0 = false) :
    ∃ z, (x ++ m).dropWhile pyIsSpace = z ++ m := by
  induction x with
  | nil =>
    refine ⟨[], ?_⟩
    show List.dropWhile pyIsSpace m = [] ++ m
    rw [hc, List.dropWhile_cons, hc0]
    simp
  | cons a x' ih =>
    obtain ⟨z, hz⟩ := ih
    by_cases hws : pyIsSpace a = true
    · refine ⟨z, ?_⟩
      rw [List.cons_append, List.dropWhile_cons, hws]
      simpa using hz
    · refine ⟨a :: x', ?_⟩
      have hwsf : pyIsSpace a = false := Bool.eq_false_iff.mpr hws
      rw [List.cons_append, List.dropWhile_cons, hwsf]
      simp

/-- Stripping `x ++ m` keeps the block `m` intact when `m` begins and
ends with non-whitespace characters. -/
theorem pyStrip_keeps_block (x m m0 m1 : List Char) (c0 d : Char)
    (hc : m = c0 :: m0) (hc0 : pyIsSpace c0 = false)
    (hd : m = m1 ++ [d]) (hd0 : pyIsSpace d = false) :
    hasSubList m (pyStripL (x ++ m)) = true := by
  obtain ⟨z, hz⟩ := dropWhile_append_suffix x m m0 c0 hc hc0
  have hy : pyStripL (x ++ m) = z ++ m := by
    unfold pyStripL
    rw [hz]
    rw [hd, ← List.append_assoc, List.reverse_append]
    rw [show ([d] : List Char).reverse = [d] from rfl]
    rw [show ([d] : List Char) ++ (z ++ m1).reverse = d :: (z ++ m1).reverse from rfl]
    rw [List.dropWhile_cons, hd0]
    simp
  rw [hy]
  have hm := hasSub_middle m z []
  rw [List.append_nil] at hm
  exact hm

/-- After a protection mutation the `class` attribute contains the
protective token. -/
theorem protectAttrs_class_marker (a : List (String × String)) :
    hasSubList protectMarker.toList
      ((getAttr (protectAttrs a) "class").getD "").toList = true := by
  unfold protectAttrs
  rw [getAttr_setAttr_other _ _ _ _ (by decide : ("style" : String) ≠ "class")]
  rw [getAttr_setAttr_same]
  rw [show (some (pyStrip (((getAttr a "class").getD "") ++ " " ++ protectMarker))).getD ""
      = pyStrip (((getAttr a "class").getD "") ++ " " ++ protectMarker) from rfl]
  rw [show (pyStrip (((getAttr a "class").getD "") ++ " " ++ protectMarker)).toList
      = pyStripL ((((getAttr a "class").getD "") ++ " " ++ protectMarker).toList) from rfl]
  rw [toList_append]
  exact pyStrip_keeps_block _ _ ("ontent-image-preserve".toList)
    ("content-image-preserv".toList) 'c' 'e' (by decide) (by decide) (by decide) (by decide)

/-- After a protection mutation the `style` attribute contains the
responsive-scaling fragment. -/
theorem protectAttrs_style_snippet (a : List (String × String)) :
    hasSubList styleSnippet.toList
      ((getAttr (protectAttrs a) "style").getD "").toList = true := by
  unfold protectAttrs
  rw [getAttr_setAttr_same]
  rw [show ∀ v : String, (some v).getD "" = v from fun v => rfl]
  rw [show ∀ s : String, (pyStrip s).toList = pyStripL s.toList from fun s => rfl]
  rw [show protectStyle = "; " ++ styleSnippet from by decide]
  rw [show ∀ u : String, (u ++ ("; " ++ styleSnippet)).toList
      = (u.toList ++ "; ".toList) ++ styleSnippet.toList from fun u => by
        rw [toList_append, toList_append, List.append_assoc]]
  exact pyStrip_keeps_block _ _
    ("ax-width: 100% !important; height: auto !important;".toList)
    ("max-width: 100% !important; height: auto !important".toList) 'm' ';'
    (by decide) (by decide) (by decide) (by decide)

/-- A skipped image is left unchanged by any number of visits. -/
theorem iterate_protectStep_skip (a : List (String × String)) (h : imgSkip a = true) :
    ∀ k, protectStep^[k] a = a := by
  intro k
  induction k with
  | zero => rfl
  | succ j ih =>
    rw [Function.iterate_succ_apply, show protectStep a = a from by simp [protectStep, h], ih]

/-- One protection step preserves the protective token in the class. -/
theorem protectStep_keeps_marker (b : List (String × String))
    (h : hasSubList protectMarker.toList ((getAttr b "class").getD "").toList = true) :
    hasSubList protectMarker.toList
      ((getAttr (protectStep b) "class").getD "").toList = true := by
  unfold protectStep
  split
  · exact h
  · exact protectAttrs_class_marker b

/-- One protection step preserves the scaling fragment in the style. -/
theorem protectStep_keeps_snippet (b : List (String × String))
    (h : hasSubList styleSnippet.toList ((getAttr b "style").getD "").toList = true) :
    hasSubList styleSnippet.toList
      ((getAttr (protectStep b) "style").getD "").toList = true := by
  unfold protectStep
  split
  · exact h
  · exact protectAttrs_style_snippet b

/-- After at least one visit of a non-skipped image, the class carries
the protective token. -/
theorem iterate_protectStep_marker (a : List (String × String)) (hskip : imgSkip a = false) :
    ∀ k, 1 ≤ k →
    hasSubList protectMarker.toList
      ((getAttr (protectStep^[k] a) "class").getD "").toList = true := by
  have hstep : protectStep a = protectAttrs a := by simp [protectStep, hskip]
  have base : ∀ (j : Nat) (b : List (String × String)),
      hasSubList protectMarker.toList ((getAttr b "class").getD "").toList = true →
      hasSubList protectMarker.toList
        ((getAttr (protectStep^[j] b) "class").getD "").toList = true := by
    intro j
    induction j with
    | zero => intro b hb; exact hb
    | succ i ih =>
      intro b hb
      rw [Function.iterate_succ_apply]
      exact ih _ (protectStep_keeps_marker b hb)
  intro k hk
  obtain ⟨j, rfl⟩ : ∃ j, k = j + 1 := ⟨k - 1, by omega⟩
  rw [Function.iterate_succ_apply, hstep]
  exact base j _ (protectAttrs_class_marker a)

/-- After at least one visit of a non-skipped image, the style carries
the scaling fragment. -/
theorem iterate_protectStep_snippet (a : List (String × String)) (hskip : imgSkip a = false) :
    ∀ k, 1 ≤ k →
    hasSubList styleSnippet.toList
      ((getAttr (protectStep^[k] a) "style").getD "").toList = true := by
  have hstep : protectStep a = protectAttrs a := by simp [protectStep, hskip]
  have base : ∀ (j : Nat) (b : List (String × String)),
      hasSubList styleSnippet.toList ((getAttr b "style").getD "").toList = true →
      hasSubList styleSnippet.toList
        ((getAttr (protectStep^[j] b) "style").getD "").toList = true := by
    intro j
    induction j with
    | zero => intro b hb; exact hb
    | succ i ih =>
      intro b hb
      rw [Function.iterate_succ_apply]
      exact ih _ (protectStep_keeps_snippet b hb)
  intro k hk
  obtain ⟨j, rfl⟩ : ∃ j, k = j + 1 := ⟨k - 1, by omega⟩
  rw [Function.iterate_succ_apply, hstep]
  exact base j _ (protectAttrs_style_snippet a)

/-- Child access commutes with the pass. -/
theorem enhanceList_get? (k : Nat) (l : List HNode) (i : Nat) :
    (enhanceList k l).get? i = (l.get? i).map (enhanceNode k) := by
  induction l generalizing i with
  | nil => simp [enhanceList]
  | cons c cs ih =>
    cases i with
    | zero => simp [enhanceList]
    | succ n => simpa [enhanceList] using ih n

/-- Transport: the node at a path in the enhanced tree is the enhanced
node, run with the region weight accumulated strictly above the path. -/
theorem nodeAt_enhance (k : Nat) (n : HNode) (p : List Nat) :
    nodeAt? (enhanceNode k n) p = (nodeAt? n p).map (enhanceNode (k + aboveWeight n p)) := by
  induction p generalizing k n with
  | nil => simp [nodeAt?, aboveWeight]
  | cons i p ih =>
    cases n with
    | text s => simp [enhanceNode, nodeAt?, aboveWeight]
    | elem tag attrs children =>
      simp only [enhanceNode, nodeAt?, aboveWeight]
      rw [enhanceList_get?]
      cases hc : children.get? i with
      | none => simp
      | some c =>
        show nodeAt? (enhanceNode (k + selCount tag attrs) c) p = _
        rw [ih]
        have h2 : k + selCount tag attrs + aboveWeight c p
            = k + (selCount tag attrs + aboveWeight c p) := by omega
        rw [h2]

/-- C8: the image-protection pass adds the protective class and the
responsive-scaling style exactly to `img` elements that lie inside at
least one matched content region (`regionWeight >= 1` counts the matched
content-selector occurrences among ancestors-or-self), whose `width`
attribute, when present and numeric, is at least 50, and whose class and
src contain none of the ad/banner/icon/logo substrings; every other
image keeps its attributes unchanged. -/
theorem enhance_content_images_exactly (root : HNode) (p : List Nat)
    (a : List (String × String)) (ch : List HNode)
    (himg : nodeAt? root p = some (.elem "img" a ch))
    (hnomark : strContains ((getAttr a "class").getD "") protectMarker = false) :
    (strContains (classAt (enhanceNode 0 root) p) protectMarker = true
       ↔ (1 ≤ regionWeight root p ∧ imgSkip a = false))
    ∧ (imgSkip a = true ∨ regionWeight root p = 0 → attrsAt (enhanceNode 0 root) p = some a)
    ∧ (1 ≤ regionWeight root p → imgSkip a = false →
       strContains (styleAt (enhanceNode 0 root) p) styleSnippet = true) := by
  have htrans := nodeAt_enhance 0 root p
  rw [himg, Nat.zero_add] at htrans
  have hrw : regionWeight root p = aboveWeight root p + selCount "img" a := by
    unfold regionWeight
    rw [himg]
  have hattrs : attrsAt (enhanceNode 0 root) p
      = some (protectStep^[aboveWeight root p + selCount "img" a] a) := by
    unfold attrsAt
    rw [htrans]
    rfl
  have hclass : classAt (enhanceNode 0 root) p
      = (getAttr (protectStep^[aboveWeight root p + selCount "img" a] a) "class").getD "" := by
    unfold classAt
    rw [hattrs]
    rfl
  have hstyle : styleAt (enhanceNode 0 root) p
      = (getAttr (protectStep^[aboveWeight root p + selCount "img" a] a) "style").getD "" := by
    unfold styleAt
    rw [hattrs]
    rfl
  refine ⟨⟨?_, ?_⟩, ?_, ?_⟩
  · intro hmark
    by_cases hskip : imgSkip a = true
    · exfalso
      rw [hclass, iterate_protectStep_skip a hskip] at hmark
      rw [hmark] at hnomark
      exact absurd hnomark (by decide)
    · refine ⟨?_, Bool.eq_false_iff.mpr hskip⟩
      by_contra hW
      have hW0 : regionWeight root p = 0 := by omega
      rw [hrw] at hW0
      rw [hclass, hW0] at hmark
      rw [show protectStep^[0] a = a from rfl] at hmark
      rw [hmark] at hnomark
      exact absurd hnomark (by decide)
  · rintro ⟨h1, h2⟩
    rw [hclass]
    exact iterate_protectStep_marker a h2 _ (by omega)
  · intro hcase
    rcases hcase with hskip | hW0
    · rw [hattrs, iterate_protectStep_skip a hskip]
    · rw [hrw] at hW0
      rw [hattrs, hW0]
      rfl
  · intro h1 h2
    rw [hstyle]
    exact iterate_protectStep_snippet a h2 _ (by omega)

/-- Witness for C8, the scenario of specification section 8: of a
30-pixel `icon` image at body level and an 800-pixel image inside an
`article`, only the latter receives the protective class and style. -/
theorem enhance_content_images_exactly_witness :
    nodeAt? c8Doc [0, 0]
      = some (.elem "img" [("width", "30"), ("class", "icon"), ("src", "i.png")] [])
    ∧ strContains
        ((getAttr [("width", "30"), ("class", "icon"), ("src", "i.png")] "class").getD "")
        protectMarker = false
    ∧ nodeAt? c8Doc [0, 1, 0] = some (.elem "img" [("width", "800"), ("src", "photo.jpg")] [])
    ∧ strContains ((getAttr [("width", "800"), ("src", "photo.jpg")] "class").getD "")
        protectMarker = false
    ∧ strContains (classAt (enhanceNode 0 c8Doc) [0, 1, 0]) protectMarker = true
    ∧ attrsAt (enhanceNode 0 c8Doc) [0, 0]
        = some [("width", "30"), ("class", "icon"), ("src", "i.png")]
    ∧ ((strContains (classAt (enhanceNode 0 c8Doc) [0, 0]) protectMarker = true
         ↔ (1 ≤ regionWeight c8Doc [0, 0]
            ∧ imgSkip [("width", "30"), ("class", "icon"), ("src", "i.png")] = false))
       ∧ (imgSkip [("width", "30"), ("class", "icon"), ("src", "i.png")] = true
            ∨ regionWeight c8Doc [0, 0] = 0 →
          attrsAt (enhanceNode 0 c8Doc) [0, 0]
            = some [("width", "30"), ("class", "icon"), ("src", "i.png")])
       ∧ (1 ≤ regionWeight c8Doc [0, 0] →
          imgSkip [("width", "30"), ("class", "icon"), ("src", "i.png")] = false →
          strContains (styleAt (enhanceNode 0 c8Doc) [0, 0]) styleSnippet = true))
    ∧ ((strContains (classAt (enhanceNode 0 c8Doc) [0, 1, 0]) protectMarker = true
         ↔ (1 ≤ regionWeight c8Doc [0, 1, 0]
            ∧ imgSkip [("width", "800"), ("src", "photo.jpg")] = false))
       ∧ (imgSkip [("width", "800"), ("src", "photo.jpg")] = true
            ∨ regionWeight c8Doc [0, 1, 0] = 0 →
          attrsAt (enhanceNode 0 c8Doc) [0, 1, 0]
            = some [("width", "800"), ("src", "photo.jpg")])
       ∧ (1 ≤ regionWeight c8Doc [0, 1, 0] →
          imgSkip [("width", "800"), ("src", "photo.jpg")] = false →
          strContains (styleAt (enhanceNode 0 c8Doc) [0, 1, 0]) styleSnippet = true)) :=
  ⟨rfl, by decide, rfl, by decide, by decide, by decide,
   enhance_content_images_exactly c8Doc [0, 0]
     [("width", "30"), ("class", "icon"), ("src", "i.png")] [] rfl (by decide),
   enhance_content_images_exactly c8Doc [0, 1, 0]
     [("width", "800"), ("src", "photo.jpg")] [] rfl (by decide)⟩
